import Mathlib

/-!
Verification development for the question-generation heuristics of the
repository (files distractor_computer.py, difficulty_analyzer.py,
validators.py, quality_scorer.py, pipeline.py).  Python values are modelled
by the inductive type PyVal, Python floats by exact rationals, Python
regular-expression calls by an executable backtracking matcher over an
explicit pattern syntax, and Python exceptions by Except.
-/

set_option maxHeartbeats 1600000
set_option maxRecDepth 8000

/-- Model of a Python runtime value as produced and consumed by the
distractor generator: int, float (modelled exactly as a rational),
bool, None, or str.  Container values (list or dict) never flow through
the functions modelled here except where noted. -/
inductive PyVal where
  | vInt : Int → PyVal
  | vFloat : Rat → PyVal
  | vBool : Bool → PyVal
  | vNone : PyVal
  | vStr : String → PyVal
deriving DecidableEq, Repr

/-- Characters treated as whitespace by Python str.strip (ASCII subset:
space, tab, newline, carriage return, vertical tab, form feed). -/
def pyIsWs (c : Char) : Bool :=
  c == ' ' || c == '\t' || c == '\n' || c == '\r' || c == Char.ofNat 11 || c == Char.ofNat 12

/-- Python str.strip(): remove leading and trailing whitespace. -/
def pyStrip (s : String) : String :=
  ⟨((s.data.dropWhile pyIsWs).reverse.dropWhile pyIsWs).reverse⟩

/-- ASCII lower-casing of one character, as Python str.lower acts on ASCII. -/
def pyLowerChar (c : Char) : Char :=
  if 'A' ≤ c ∧ c ≤ 'Z' then Char.ofNat (c.toNat + 32) else c

/-- Python str.lower() (ASCII model). -/
def pyLower (s : String) : String := ⟨s.data.map pyLowerChar⟩

/-- ASCII upper-casing of one character, as Python str.upper acts on ASCII. -/
def pyUpperChar (c : Char) : Char :=
  if 'a' ≤ c ∧ c ≤ 'z' then Char.ofNat (c.toNat - 32) else c

/-- Python str.upper() (ASCII model). -/
def pyUpper (s : String) : String := ⟨s.data.map pyUpperChar⟩

/-- Python decimal digit test (ASCII model of str.isdigit; non-ASCII
decimal digits are not modelled). -/
def pyIsDigit (c : Char) : Bool := '0' ≤ c && c ≤ '9'

/-- Containment of one character list inside another at any position. -/
def listInfixOf (needle : List Char) : List Char → Bool
  | [] => needle.isEmpty
  | c :: t => needle.isPrefixOf (c :: t) || listInfixOf needle t

/-- Python substring containment test (the in operator on strings). -/
def strIn (needle hay : String) : Bool := listInfixOf needle.data hay.data

/-- Python str.startswith. -/
def startsWithS (s pre : String) : Bool := pre.data.isPrefixOf s.data

/-- Numeric value of one decimal digit character. -/
def digitVal (c : Char) : Nat := c.toNat - 48

/-- Decimal digit character for a value below ten. -/
def digitChar : Nat → Char
  | 0 => '0' | 1 => '1' | 2 => '2' | 3 => '3' | 4 => '4'
  | 5 => '5' | 6 => '6' | 7 => '7' | 8 => '8' | _ => '9'

/-- Value of a (nonempty, all-digits) decimal numeral read left to right. -/
def natOfDigits (l : List Char) : Nat :=
  l.foldl (fun a c => 10 * a + digitVal c) 0

/-- Decimal digit list helper, structurally recursive on a fuel bound so
that it evaluates inside the kernel; the quotient by ten shrinks strictly,
so fuel n + 1 always suffices. -/
def natDigitsAux : Nat → Nat → List Char
  | 0, _ => []
  | fuel + 1, n =>
    if n < 10 then [digitChar n]
    else natDigitsAux fuel (n / 10) ++ [digitChar (n % 10)]

/-- Decimal digit list of a natural number, most significant first. -/
def natDigitsList (n : Nat) : List Char := natDigitsAux (n + 1) n

/-- Model of Python str(n) for a natural number. -/
def strOfNat (n : Nat) : String := ⟨natDigitsList n⟩

/-- Model of Python str(n) for an int. -/
def strOfInt (n : Int) : String :=
  if n < 0 then "-" ++ strOfNat n.natAbs else strOfNat n.natAbs

/-- Decimal rendering of the fractional digits of a rational in lowest
terms, up to the given number of digits. -/
def fracDigits (num den : Nat) : Nat → List Char
  | 0 => []
  | fuel + 1 =>
    if num = 0 then []
    else
      let num' := num * 10
      digitChar (num' / den) :: fracDigits (num' % den) den fuel

/-- Model of Python str(x) for a float value.  Python renders the shortest
decimal that round-trips; this model renders the exact decimal expansion
(up to 30 digits).  The two agree on the values exercised by the theorems
below; no proof in this file depends on the precise float rendering. -/
def strOfFloat (q : Rat) : String :=
  let sign := if q < 0 then "-" else ""
  let n := q.num.natAbs
  let d := q.den
  let ip := n / d
  let rest := n % d
  let frac := if rest = 0 then ['0'] else fracDigits rest d 30
  sign ++ strOfNat ip ++ "." ++ ⟨frac⟩

/-- Model of Python str() on a runtime value. -/
def pyStr : PyVal → String
  | .vInt n => strOfInt n
  | .vFloat q => strOfFloat q
  | .vBool true => "True"
  | .vBool false => "False"
  | .vNone => "None"
  | .vStr s => s

/-- Model of Python int(s) on a string: optional single sign followed by a
nonempty run of decimal digits (underscore separators and non-ASCII digits
are not modelled).  Returns none where Python raises ValueError. -/
def pyIntParse (s : String) : Option Int :=
  let t := (pyStrip s).data
  match t with
  | '-' :: rest =>
    if rest ≠ [] ∧ rest.all pyIsDigit then some (-(natOfDigits rest : Int)) else none
  | '+' :: rest =>
    if rest ≠ [] ∧ rest.all pyIsDigit then some (natOfDigits rest : Int) else none
  | l => if l ≠ [] ∧ l.all pyIsDigit then some (natOfDigits l : Int) else none

/-- Power of ten as a rational. -/
def pow10 (e : Int) : Rat :=
  if 0 ≤ e then ((10 : Rat) ^ e.toNat) else 1 / ((10 : Rat) ^ (-e).toNat)

/-- Helper for pyFloatParse: digits of the mantissa and exponent assembled
into a rational value. -/
def floatVal (ip fp : List Char) (e : Int) : Rat :=
  ((natOfDigits ip : Rat) + (natOfDigits fp : Rat) / (10 : Rat) ^ fp.length) * pow10 e

/-- Model of Python float(s) on a string: optional sign, decimal mantissa
with optional fractional part, optional exponent part (inf, nan and
underscore separators are not modelled).  Returns none where Python raises
ValueError. -/
def pyFloatParse (s : String) : Option Rat :=
  let t := (pyStrip s).data
  let (sgn, t1) :=
    match t with
    | '-' :: r => ((-1 : Rat), r)
    | '+' :: r => ((1 : Rat), r)
    | r => ((1 : Rat), r)
  let ip := t1.takeWhile pyIsDigit
  let t2 := t1.drop ip.length
  let (fp, t3) :=
    match t2 with
    | '.' :: r => (r.takeWhile pyIsDigit, (r.drop (r.takeWhile pyIsDigit).length, true))
    | r => ([], (r, false))
  if ip = [] ∧ fp = [] ∧ ¬ t3.2 then none
  else if ip = [] ∧ fp = [] then none
  else
    match t3.1 with
    | [] => some (sgn * floatVal ip fp 0)
    | 'e' :: r =>
      match r with
      | '-' :: d => if d ≠ [] ∧ d.all pyIsDigit then some (sgn * floatVal ip fp (-(natOfDigits d : Int))) else none
      | '+' :: d => if d ≠ [] ∧ d.all pyIsDigit then some (sgn * floatVal ip fp (natOfDigits d : Int)) else none
      | d => if d ≠ [] ∧ d.all pyIsDigit then some (sgn * floatVal ip fp (natOfDigits d : Int)) else none
    | 'E' :: r =>
      match r with
      | '-' :: d => if d ≠ [] ∧ d.all pyIsDigit then some (sgn * floatVal ip fp (-(natOfDigits d : Int))) else none
      | '+' :: d => if d ≠ [] ∧ d.all pyIsDigit then some (sgn * floatVal ip fp (natOfDigits d : Int)) else none
      | d => if d ≠ [] ∧ d.all pyIsDigit then some (sgn * floatVal ip fp (natOfDigits d : Int)) else none
    | _ => none

/-- DistractorComputer._parse_value: parse a display value into a proper
typed value.  Booleans and null literals are recognised case-insensitively
after stripping; an integer literal (no decimal point, digits after
stripping a leading run of minus signs) is converted by int(); a string
containing a dot or an e is tried as a float; everything else is returned
as the stripped string.  The Python try/except blocks around int() and
float() are modelled by the Option results of pyIntParse and pyFloatParse
falling through to the string case. -/
def _parse_value (value : PyVal) : PyVal :=
  match value with
  | .vNone => .vNone
  | .vInt n => .vInt n
  | .vFloat q => .vFloat q
  | .vBool b => .vBool b
  | .vStr s =>
    let value_str := pyStrip s
    if pyLower value_str = "true" then .vBool true
    else if pyLower value_str = "false" then .vBool false
    else if pyLower value_str = "null" ∨ pyLower value_str = "undefined" ∨ pyLower value_str = "none" then .vNone
    else if ¬ value_str.data.contains '.' ∧
            ((value_str.data.dropWhile (· == '-')) ≠ [] ∧ (value_str.data.dropWhile (· == '-')).all pyIsDigit) then
      -- int(value_str) raises ValueError (caught) only for repeated minus
      -- signs; the float branch below then never fires because the guard
      -- excludes dots and the digits exclude an e, so the result is the
      -- stripped string, which pyIntParse = none reproduces.
      match pyIntParse value_str with
      | some n => .vInt n
      | none => .vStr value_str
    else if value_str.data.contains '.' ∨ (pyLower value_str).data.contains 'e' then
      match pyFloatParse value_str with
      | some q => .vFloat q
      | none => .vStr value_str
    else .vStr value_str

/-- DistractorComputer._get_value_type: categorise a parsed value for the
distractor strategy dispatch. -/
def _get_value_type (value : PyVal) : String :=
  match value with
  | .vBool _ => "boolean"
  | .vInt _ => "numeric"
  | .vFloat _ => "numeric"
  | .vStr v =>
    if startsWithS v "O(" || startsWithS v "Θ(" || startsWithS v "Ω(" then "complexity"
    else if v.data.contains '[' || strIn "null" (pyLower v) then "list"
    else if strIn "process" (pyLower v) then "process"
    else if (pyFloatParse v).isSome then "numeric"
    else "string"
  | .vNone => "string"

/-- One generated distractor: a value, a misconception tag, and an
explanation, mirroring the dicts built by DistractorComputer. -/
structure Distractor where
  value : PyVal
  misconception : String
  explanation : String
deriving DecidableEq, Repr

/-- Ground-truth record passed to the distractor generator.  The Python
dict carries at least the pairs counter (ground_truth.get with default 0 is
folded into the field); reprStr models str(ground_truth), which the code
probes only for the substring accumulate. -/
structure GroundTruth where
  pairs : Int
  reprStr : String
deriving Repr

/-- Rendered value of a distractor, the string used for deduplication. -/
def renderD (d : Distractor) : String := pyStr d.value

/-- Python truthiness negation (the not operator); in the modelled flow it
is only applied to bool values. -/
def pyNot : PyVal → Bool
  | .vBool b => !b
  | .vInt n => n == 0
  | .vFloat q => q == 0
  | .vStr s => s == ""
  | .vNone => true

/-- Element parser used by the list-structure parser: try int(), then
float(), else keep the raw string (the nested try/except chain). -/
def parseElemVal (elem : String) : PyVal :=
  match pyIntParse elem with
  | some n => .vInt n
  | none =>
    match pyFloatParse elem with
    | some q => .vFloat q
    | none => .vStr elem

/-- Character loop of DistractorComputer._parse_list_structure on a string:
the depth counter is adjusted on brackets, an element is finalised at a
comma at depth one or at the closing bracket returning to depth zero
(which also ends the loop, modelling break), and any character seen at
depth at least one after the adjustments is appended to the current
element buffer. -/
def plsLoop : List Char → Int → List Char → List PyVal → List PyVal
  | [], _, _, acc => acc
  | c :: cs, depth, cur, acc =>
    if c = '[' then
      let d := depth + 1
      if d = 1 then plsLoop cs d cur acc
      else if d ≥ 1 then plsLoop cs d (cur ++ [c]) acc
      else plsLoop cs d cur acc
    else if c = ']' then
      let d := depth - 1
      if d = 0 then
        let elem := pyStrip ⟨cur⟩
        if elem ≠ "" ∧ pyLower elem ≠ "null" then acc ++ [parseElemVal elem] else acc
      else if d ≥ 1 then plsLoop cs d (cur ++ [c]) acc
      else plsLoop cs d cur acc
    else if c = ',' ∧ depth = 1 then
      let elem := pyStrip ⟨cur⟩
      let acc' := if elem ≠ "" ∧ pyLower elem ≠ "null" then acc ++ [parseElemVal elem] else acc
      plsLoop cs depth [] acc'
    else
      if depth ≥ 1 then plsLoop cs depth (cur ++ [c]) acc
      else plsLoop cs depth cur acc

/-- DistractorComputer._parse_list_structure on a runtime value.  The
Python function also accepts list, tuple and dict inputs, which cannot
occur among the interpreter display values modelled by PyVal; for every
other non-string input it returns None, as modelled here. -/
def _parse_list_structure (value : PyVal) : Option (List PyVal) :=
  match value with
  | .vStr v =>
    let s := pyStrip v
    if startsWithS s "[" then some (plsLoop s.data 0 [] []) else none
  | _ => none

/-- DistractorComputer._list_to_source: render a flat element sequence in
Source nested-pair notation.  The Python fold over the reversed list is
written as the equivalent right recursion; the nested-list element case of
the Python code is inlined at its single call site (extra_nesting). -/
def _list_to_source : List PyVal → String
  | [] => "null"
  | e :: rest => "[" ++ pyStr e ++ ", " ++ _list_to_source rest ++ "]"

/-- Numeric Python value: an int or a float. -/
inductive PyNum where
  | pint : Int → PyNum
  | pfloat : Rat → PyNum
deriving DecidableEq, Repr

/-- Rational magnitude of a numeric value (used for comparisons, which
Python performs across int and float). -/
def PyNum.toRat : PyNum → Rat
  | .pint n => (n : Rat)
  | .pfloat q => q

/-- Whether the value is an int. -/
def PyNum.isInt : PyNum → Bool
  | .pint _ => true
  | .pfloat _ => false

/-- Back to a runtime value. -/
def PyNum.toPyVal : PyNum → PyVal
  | .pint n => .vInt n
  | .pfloat q => .vFloat q

/-- Addition of an int constant (int stays int, float stays float). -/
def PyNum.addI : PyNum → Int → PyNum
  | .pint n, k => .pint (n + k)
  | .pfloat q, k => .pfloat (q + k)

/-- Multiplication by an int constant. -/
def PyNum.mulI : PyNum → Int → PyNum
  | .pint n, k => .pint (n * k)
  | .pfloat q, k => .pfloat (q * k)

/-- Doubling by self-addition (correct + correct). -/
def PyNum.addSelf : PyNum → PyNum
  | .pint n => .pint (n + n)
  | .pfloat q => .pfloat (q + q)

/-- The expression correct // 2 if is_int else correct / 2. -/
def PyNum.halve : PyNum → PyNum
  | .pint n => .pint (Int.fdiv n 2)
  | .pfloat q => .pfloat (q / 2)

/-- Integer floor halving (only reached on ints in the source). -/
def PyNum.fdivTwo : PyNum → PyNum
  | .pint n => .pint (Int.fdiv n 2)
  | .pfloat q => .pfloat (q / 2)

/-- The normalisation at the top of generate_numeric_distractors:
an integral float is converted to an int. -/
def pynumNormalize : PyNum → PyNum
  | .pint n => .pint n
  | .pfloat q => if q.den = 1 then .pint q.num else .pfloat q

/-- Search for a factorial value matching the answer: the loop over
range(2, 10) in generate_numeric_distractors, stopping at the first hit. -/
def factSearch (correct : PyNum) : List Distractor :=
  match (List.range' 2 8).find? (fun k => ((Nat.factorial k : Int) : Rat) == correct.toRat && decide (1 < k)) with
  | some k =>
    [⟨.vInt (Nat.factorial (k - 1)), "factorial_off_by_one",
      "Computed factorial(" ++ strOfNat (k - 1) ++ ") instead of factorial(" ++ strOfNat k ++ ")"⟩]
  | none => []

/-- DistractorComputer.generate_numeric_distractors.  Translated branch by
branch in source order; the list concatenation preserves the append order
of the Python list. -/
def generate_numeric_distractors (correct_value : PyNum) (concept : String) (ground_truth : GroundTruth) :
    List Distractor :=
  let correct := pynumNormalize correct_value
  let is_int := correct.isInt
  let l1 :=
    if 0 < correct.toRat then
      [⟨(correct.addI (-1)).toPyVal, "off_by_one_minus", "Base case or boundary off by one"⟩]
    else []
  let l2 := [⟨(correct.addI 1).toPyVal, "off_by_one_plus", "Counted one extra step"⟩]
  let pair_count := ground_truth.pairs
  let l3 :=
    if 0 < pair_count ∧ (pair_count : Rat) ≠ correct.toRat then
      [⟨.vInt pair_count, "confused_with_pair_count",
        "Confused result with number of pairs created (" ++ strOfInt pair_count ++ ")"⟩]
    else []
  let l4 :=
    if concept = "recursion" ∨ concept = "recursion_process" ∨ concept = "iterative_process" then
      (if correct.toRat ≠ 0 ∧ correct.toRat ≠ 1 then
        [⟨.vInt 0, "wrong_base_case_zero", "Used 0 as base case result"⟩,
         ⟨.vInt 1, "wrong_base_case_one", "Used 1 as base case result"⟩]
       else []) ++
      (if 2 < correct.toRat then
        [⟨(correct.addI (-2)).toPyVal, "off_by_two_recursion", "Miscounted recursion depth by 2"⟩]
       else [])
    else []
  let l5 :=
    if concept = "list_library" ∨ concept = "lists" ∨ concept = "map" ∨ concept = "filter" ∨ concept = "accumulate" then
      (if 1 < correct.toRat then
        [⟨correct.halve.toPyVal, "half_list_processed", "Only processed half the list"⟩]
       else []) ++
      (if strIn "accumulate" (pyLower ground_truth.reprStr) then
        [⟨correct.addSelf.toPyVal, "accumulate_wrong_init", "Wrong initial value in accumulate"⟩]
       else [])
    else []
  let l6 :=
    if concept = "orders_of_growth" ∨ concept = "recurrence_relations" then
      (if 10 < correct.toRat then factSearch correct else [])
    else []
  let l7 :=
    if concept = "higher_order_functions" ∨ concept = "scope_lexical" then
      (if correct.toRat ≠ 0 then
        [⟨.vInt 0, "closure_wrong_binding", "Used wrong environment frame"⟩]
       else [])
    else []
  let l8 :=
    if 2 < correct.toRat then
      [⟨(correct.mulI 2).toPyVal, "doubled_result", "Applied operation twice"⟩] ++
      (if is_int then
        [⟨correct.fdivTwo.toPyVal, "halved_result", "Missing one application"⟩]
       else [])
    else []
  l1 ++ l2 ++ l3 ++ l4 ++ l5 ++ l6 ++ l7 ++ l8

/-- Whether a value is numeric for isinstance(x, (int, float)); Python
bools are ints, so vBool counts. -/
def isNumLike : PyVal → Bool
  | .vInt _ => true
  | .vFloat _ => true
  | .vBool _ => true
  | _ => false

/-- The element transform x + 1 of the wrong_transformation distractor
(only applied under the all-numeric guard). -/
def pvAddOne : PyVal → PyVal
  | .vInt n => .vInt (n + 1)
  | .vFloat q => .vFloat (q + 1)
  | .vBool b => .vInt ((if b then 1 else 0) + 1)
  | x => x

/-- The element transform x * 2 of the partial_map distractor. -/
def pvMulTwo : PyVal → PyVal
  | .vInt n => .vInt (n * 2)
  | .vFloat q => .vFloat (q * 2)
  | .vBool b => .vInt ((if b then 1 else 0) * 2)
  | x => x

/-- DistractorComputer.generate_list_distractors, translated branch by
branch in source order. -/
def generate_list_distractors (correct_list : List PyVal) (concept : String) (_ground_truth : GroundTruth) :
    List Distractor :=
  if correct_list = [] then
    [⟨.vStr "[1, null]", "off_by_one_empty", "Returned extra element for empty input"⟩]
  else
    let l1 :=
      if 1 < correct_list.length then
        [⟨.vStr (_list_to_source correct_list.dropLast), "missing_last_element", "Stopped one element early"⟩]
      else []
    let l2 :=
      if 0 < correct_list.length then
        [⟨.vStr (_list_to_source (correct_list.drop 1)), "missing_first_element", "Started from tail instead of head"⟩]
      else []
    let l3 :=
      if 2 ≤ correct_list.length then
        [⟨.vStr (_list_to_source correct_list.reverse), "reversed_order", "Built list in wrong order (accumulate without reverse)"⟩]
      else []
    let l4 :=
      if (concept = "map" ∨ concept = "list_library") ∧ correct_list.all isNumLike then
        (let wrong_transform := correct_list.map pvAddOne
         if wrong_transform ≠ correct_list then
           [⟨.vStr (_list_to_source wrong_transform), "wrong_transformation", "Applied wrong function to elements"⟩]
         else []) ++
        (if 1 < correct_list.length then
          (let firstDoubled := pvMulTwo (correct_list.headD .vNone) :: correct_list.drop 1
           if firstDoubled ≠ correct_list then
             [⟨.vStr (_list_to_source firstDoubled), "partial_map", "Only transformed first element"⟩]
           else [])
         else [])
      else []
    let l5 :=
      if concept = "filter" then
        (if 0 < correct_list.length ∧ correct_list.length < 5 then
          [⟨.vStr "null", "filter_all_removed", "Predicate inverted - removed all elements"⟩]
         else [])
      else []
    let l6 :=
      if 2 ≤ correct_list.length then
        [⟨.vStr ("[" ++ _list_to_source correct_list ++ ", null]"), "extra_nesting", "Wrapped result in extra list"⟩]
      else []
    l1 ++ l2 ++ l3 ++ l4 ++ l5 ++ l6

/-- The static confusion table of generate_complexity_distractors, keyed by
the normalised complexity string, in source (insertion) order. -/
def confusion_map : List (String × List Distractor) :=
  [("O(1)",
    [⟨.vStr "O(n)", "assumes_linear_scan", "Thought operation scans input"⟩,
     ⟨.vStr "O(log n)", "confuses_with_binary", "Confused with divide-and-conquer"⟩]),
   ("O(LOGN)",
    [⟨.vStr "O(1)", "ignores_recursion_depth", "Forgot to count recursive calls"⟩,
     ⟨.vStr "O(n)", "linear_not_log", "Confused halving with linear decrease"⟩]),
   ("O(N)",
    [⟨.vStr "O(1)", "ignored_recursion", "Forgot the function is recursive"⟩,
     ⟨.vStr "O(n^2)", "saw_nested_structure", "Thought nested calls meant quadratic"⟩,
     ⟨.vStr "O(log n)", "thought_dividing", "Assumed divide-and-conquer pattern"⟩]),
   ("O(NLOGN)",
    [⟨.vStr "O(n^2)", "wrong_recurrence", "Incorrectly solved recurrence relation"⟩,
     ⟨.vStr "O(n)", "ignored_tree_depth", "Forgot to multiply by recursion depth"⟩]),
   ("O(N^2)",
    [⟨.vStr "O(n)", "miscounted_nested_loops", "Counted inner loop as constant"⟩,
     ⟨.vStr "O(n log n)", "assumed_divide_conquer", "Assumed efficient algorithm pattern"⟩]),
   ("O(2^N)",
    [⟨.vStr "O(n^2)", "polynomial_exponential_confusion", "Confused exponential with polynomial"⟩,
     ⟨.vStr "O(n)", "ignored_branching", "Counted calls linearly instead of branching"⟩])]

/-- DistractorComputer.generate_complexity_distractors: normalise (drop
spaces, upper-case), return the first table row whose key is a substring
of the normalised answer or vice versa, else the default triple.  The
identity replace calls of the source are omitted. -/
def generate_complexity_distractors (correct_complexity : String) : List Distractor :=
  let correct := pyUpper ⟨correct_complexity.data.filter (· ≠ ' ')⟩
  match confusion_map.find? (fun p => strIn p.1 correct || strIn correct p.1) with
  | some p => p.2
  | none =>
    [⟨.vStr "O(n)", "default_linear", "Guessed linear complexity"⟩,
     ⟨.vStr "O(n^2)", "default_quadratic", "Guessed quadratic complexity"⟩,
     ⟨.vStr "O(1)", "default_constant", "Thought it was constant time"⟩]

/-- DistractorComputer.generate_process_distractors. -/
def generate_process_distractors (correct_process : String) : List Distractor :=
  let is_recursive := strIn "recursive" (pyLower correct_process)
  if is_recursive then
    [⟨.vStr "Iterative Process", "process_type_confusion", "Confused recursive function with iterative process"⟩,
     ⟨.vStr "O(1) Space", "space_confusion", "Confused process type with space complexity"⟩,
     ⟨.vStr "Tail Recursive", "tail_call_confusion", "Thought any recursion is tail-recursive"⟩]
  else
    [⟨.vStr "Recursive Process", "process_type_confusion", "Confused iterative process with recursive process"⟩,
     ⟨.vStr "O(n) Space", "space_confusion", "Confused process type with space complexity"⟩,
     ⟨.vStr "Not Recursive", "function_vs_process", "Confused recursive function with recursive process"⟩]

/-- Deduplication pass of generate_smart_distractors: keep a distractor if
its rendered value is not in the seen set, extending the set as it goes;
returns the kept list and the final seen set. -/
def dedupD : List Distractor → List String → (List Distractor × List String)
  | [], seen => ([], seen)
  | d :: ds, seen =>
    if seen.contains (renderD d) then dedupD ds seen
    else
      let p := dedupD ds (seen ++ [renderD d])
      (d :: p.1, p.2)

/-- One iteration of the padding while loop of generate_smart_distractors:
the candidate distractor appended for the current value category, or none
where the Python loop breaks.  The value drawn by random.choice is
modelled by the stream rand, indexed by the iteration counter.  In every
branch the rendered value of the returned distractor is exactly the string
the source adds to the seen set, and it is fresh with respect to seen. -/
def padChoice (value_type : String) (parsed_answer correct_answer : PyVal) (rand : Nat → Int)
    (i : Nat) (seen : List String) : Option Distractor :=
  if value_type = "numeric" then
    match parsed_answer with
    | .vInt n =>
      let offset := rand i
      let new_val : PyVal := .vInt (n + offset)
      if 0 ≤ n + offset ∧ ¬ seen.contains (pyStr new_val) then
        some ⟨new_val, "arithmetic_error", "Off by " ++ strOfNat offset.natAbs⟩
      else
        let nv2 : PyVal := .vInt (n * 2 + 1)
        if ¬ seen.contains (pyStr nv2) then
          some ⟨nv2, "calculation_error", "Wrong arithmetic"⟩
        else none
    | .vFloat q =>
      let offset := rand i
      let new_val : PyVal := .vFloat (q + offset)
      if 0 ≤ q + offset ∧ ¬ seen.contains (pyStr new_val) then
        some ⟨new_val, "arithmetic_error", "Off by " ++ strOfNat offset.natAbs⟩
      else
        let nv2 : PyVal := .vFloat (q * 2 + 1)
        if ¬ seen.contains (pyStr nv2) then
          some ⟨nv2, "calculation_error", "Wrong arithmetic"⟩
        else none
    | _ => none
  else if value_type = "list" then
    let parsed_list := (_parse_list_structure correct_answer).getD []
    if 2 < parsed_list.length then
      let half := parsed_list.take (parsed_list.length / 2)
      let half_str := _list_to_source half
      if ¬ seen.contains half_str then
        some ⟨.vStr half_str, "truncated_list", "Only processed part of list"⟩
      else none
    else none
  else if value_type = "complexity" then
    (["O(1)", "O(log n)", "O(n)", "O(n log n)", "O(n^2)", "O(2^n)"].find?
      (fun o => !seen.contains o)).map
      (fun opt => ⟨.vStr opt, "complexity_guess", "Wrong complexity class"⟩)
  else none

/-- The padding while loop of generate_smart_distractors: while the list is
short of the requested count, append the branch candidate (extending the
seen set by its rendered value, exactly as the source does) or break when
the branch produces none.  Each iteration appends one element or stops, so
the loop runs at most num_distractors iterations; the fuel argument
(called with num_distractors) makes that bound explicit. -/
def pad_distractors (value_type : String) (parsed_answer correct_answer : PyVal) (rand : Nat → Int)
    (num_distractors : Nat) : Nat → Nat → List Distractor → List String → List Distractor
  | 0, _, acc, _ => acc
  | fuel + 1, i, acc, seen =>
    if acc.length < num_distractors then
      match padChoice value_type parsed_answer correct_answer rand i seen with
      | some d =>
        pad_distractors value_type parsed_answer correct_answer rand num_distractors fuel (i + 1)
          (acc ++ [d]) (seen ++ [renderD d])
      | none => acc
    else acc

/-- DistractorComputer.generate_smart_distractors: parse the answer,
dispatch on its category, deduplicate against the raw and parsed answer
renderings, pad, and cut to the requested count.  The Python TypeError
raised when a string parses as numeric (for example inf or +5, where the
comparison correct greater than 0 compares str with int) is modelled by
the error result. -/
def generate_smart_distractors (concept : String) (correct_answer : PyVal) (ground_truth : GroundTruth)
    (num_distractors : Nat) (rand : Nat → Int) : Except String (List Distractor) :=
  let parsed_answer := _parse_value correct_answer
  let value_type := _get_value_type parsed_answer
  let dres : Except String (List Distractor) :=
    if value_type = "numeric" then
      match parsed_answer with
      | .vInt n => .ok (generate_numeric_distractors (.pint n) concept ground_truth)
      | .vFloat q => .ok (generate_numeric_distractors (.pfloat q) concept ground_truth)
      | _ => .error "TypeError: comparison not supported between str and int"
    else if value_type = "list" then
      match _parse_list_structure correct_answer with
      | some parsed_list => .ok (generate_list_distractors parsed_list concept ground_truth)
      | none =>
        .ok [⟨.vStr "null", "empty_result", "Returned empty list"⟩,
             ⟨.vStr "[0, null]", "wrong_element", "Wrong first element"⟩]
    else if value_type = "complexity" then
      .ok (generate_complexity_distractors (pyStr parsed_answer))
    else if value_type = "boolean" then
      .ok [⟨.vBool (pyNot parsed_answer), "boolean_inversion", "Inverted the predicate result"⟩,
           ⟨.vStr "undefined", "undefined_check", "Thought expression was undefined"⟩]
    else if value_type = "process" then
      .ok (generate_process_distractors (pyStr parsed_answer))
    else
      .ok [⟨.vStr "undefined", "undefined_result", "Expected undefined"⟩,
           ⟨.vStr "Error", "runtime_error", "Expected runtime error"⟩]
  match dres with
  | .error e => .error e
  | .ok distractors =>
    let seen0 := [pyStr correct_answer, pyStr parsed_answer]
    let p := dedupD distractors seen0
    let padded := pad_distractors value_type parsed_answer correct_answer rand num_distractors
      num_distractors 0 p.1 p.2
    .ok (padded.take num_distractors)

/-- Pattern syntax covering the regular expressions used by the analysed
source files: literals, single-character classes, greedy star and plus over
a class (every starred or plus-ed subexpression in the source is a
single-character class), concatenation, alternation, greedy option,
capturing groups, backreferences, word boundaries, negative lookahead and
the start anchor.  Matching follows the leftmost, greedy, backtracking
semantics of the Python re module. -/
inductive RE where
  | lit : List Char → RE
  | cls : (Char → Bool) → RE
  | starC : (Char → Bool) → RE
  | plusC : (Char → Bool) → RE
  | seq : RE → RE → RE
  | alt : RE → RE → RE
  | opt : RE → RE
  | grp : Nat → RE → RE
  | bref : Nat → RE
  | wordB : RE
  | negLook : RE → RE
  | bos : RE

/-- Fold a nonempty list of patterns into a concatenation. -/
def RE.seqs : List RE → RE
  | [] => .lit []
  | [r] => r
  | r :: rest => .seq r (RE.seqs rest)

/-- Fold a nonempty list of patterns into an alternation (tried left to
right, as Python does). -/
def RE.alts : List RE → RE
  | [] => .lit []
  | [r] => r
  | r :: rest => .alt r (RE.alts rest)

/-- Captured groups: group index paired with the captured characters
(latest capture first, looked up by first match). -/
def Caps := List (Nat × List Char)

/-- Continuation used by the matcher: remaining input, previous character
(none only at the very start of the subject), captures so far. -/
def MK := List Char → Option Char → Caps → Option (List Char × Caps)

/-- Word character test of the re module (ASCII model of backslash-w). -/
def reWordChar (c : Char) : Bool :=
  ('a' ≤ c && c ≤ 'z') || ('A' ≤ c && c ≤ 'Z') || ('0' ≤ c && c ≤ '9') || c == '_'

/-- Word boundary test between the previous character and the next one. -/
def atWordBoundary (prev : Option Char) (s : List Char) : Bool :=
  (match prev with | some c => reWordChar c | none => false) !=
  (match s with | c :: _ => reWordChar c | [] => false)

/-- Literal matching with continuation. -/
def matchLit : List Char → List Char → Option Char → Caps → MK → Option (List Char × Caps)
  | [], s, prev, caps, k => k s prev caps
  | c :: cs, s, prev, caps, k =>
    match s with
    | d :: ds => if d = c then matchLit cs ds (some d) caps k else none
    | [] => none

/-- Greedy star over a character class with backtracking: consume as many
class characters as possible, then give back one at a time until the
continuation succeeds. -/
def starRun (f : Char → Bool) : List Char → Option Char → Caps → MK → Option (List Char × Caps)
  | s, prev, caps, k =>
    match s with
    | c :: cs =>
      if f c then
        match starRun f cs (some c) caps k with
        | some r => some r
        | none => k s prev caps
      else k s prev caps
    | [] => k [] prev caps

/-- The backtracking matcher.  Alternation and option try the left or
present branch first; groups record the consumed span; a backreference
matches the most recent capture of its group literally and fails if the
group has not captured (Python rejects patterns whose backreference names
a group the pattern does not define, which is checked separately by
REvalidB). -/
def RE.mtch : RE → List Char → Option Char → Caps → MK → Option (List Char × Caps)
  | .lit l, s, prev, caps, k => matchLit l s prev caps k
  | .cls f, s, prev, caps, k =>
    (match s with
     | c :: cs => if f c then k cs (some c) caps else none
     | [] => none)
  | .starC f, s, prev, caps, k => starRun f s prev caps k
  | .plusC f, s, prev, caps, k =>
    (match s with
     | c :: cs => if f c then starRun f cs (some c) caps k else none
     | [] => none)
  | .seq a b, s, prev, caps, k =>
    a.mtch s prev caps (fun s' prev' caps' => b.mtch s' prev' caps' k)
  | .alt a b, s, prev, caps, k =>
    (match a.mtch s prev caps k with
     | some r => some r
     | none => b.mtch s prev caps k)
  | .opt a, s, prev, caps, k =>
    (match a.mtch s prev caps k with
     | some r => some r
     | none => k s prev caps)
  | .grp n a, s, prev, caps, k =>
    a.mtch s prev caps (fun s' prev' caps' =>
      k s' prev' ((n, s.take (s.length - s'.length)) :: caps'))
  | .bref n, s, prev, caps, k =>
    (match List.find? (fun p => p.1 == n) caps with
     | some p => matchLit p.2 s prev caps k
     | none => none)
  | .wordB, s, prev, caps, k =>
    if atWordBoundary prev s then k s prev caps else none
  | .negLook a, s, prev, caps, k =>
    (match a.mtch s prev caps (fun s' _ caps' => some (s', caps')) with
     | some _ => none
     | none => k s prev caps)
  | .bos, s, prev, caps, k =>
    (match prev with
     | none => k s prev caps
     | some _ => none)

/-- Try to match the pattern at the current position only. -/
def matchHere (r : RE) (s : List Char) (prev : Option Char) : Option (List Char × Caps) :=
  r.mtch s prev [] (fun s' _ caps => some (s', caps))

/-- Scan for a match at any position: re.search as a boolean. -/
def reSearchAux (r : RE) : List Char → Option Char → Bool
  | s, prev =>
    match matchHere r s prev with
    | some _ => true
    | none =>
      match s with
      | c :: cs => reSearchAux r cs (some c)
      | [] => false

/-- Python re.search(pattern, s) is not None. -/
def reSearchB (r : RE) (s : String) : Bool := reSearchAux r s.data none

/-- Scan for the first match, returning its captures: re.search with group
extraction (used by the per-line checks of the validator). -/
def reSearchCaps (r : RE) : List Char → Option Char → Option Caps
  | s, prev =>
    match matchHere r s prev with
    | some p => some p.2
    | none =>
      match s with
      | c :: cs => reSearchCaps r cs (some c)
      | [] => none

/-- All non-overlapping leftmost matches: re.findall.  Each element is the
pair of the whole matched span and its captures.  After a nonempty match
scanning resumes at its end; after an empty match it advances one
character, as the re module does. -/
def reFindAllFuel (r : RE) : Nat → List Char → Option Char → List (List Char × Caps)
  | 0, _, _ => []
  | fuel + 1, s, prev =>
    match matchHere r s prev with
    | some (s', caps) =>
      let consumed := s.take (s.length - s'.length)
      if s'.length < s.length then
        let prev' := match consumed.getLast? with | some c => some c | none => prev
        (consumed, caps) :: reFindAllFuel r fuel s' prev'
      else
        match s with
        | c :: cs => (consumed, caps) :: reFindAllFuel r fuel cs (some c)
        | [] => [(consumed, caps)]
    | none =>
      match s with
      | c :: cs => reFindAllFuel r fuel cs (some c)
      | [] => []

/-- All matches of a pattern: the scan position advances at every step, so
fuel length + 1 always suffices and the fuel recursion is exact. -/
def reFindAllAux (r : RE) (s : List Char) (prev : Option Char) : List (List Char × Caps) :=
  reFindAllFuel r (s.length + 1) s prev

/-- Number of matches: len(re.findall(pattern, s)). -/
def reCount (r : RE) (s : String) : Nat := (reFindAllAux r s.data none).length

/-- Group-one strings of every match: re.findall for a pattern with one
capturing group. -/
def reFindAll1 (r : RE) (s : String) : List String :=
  (reFindAllAux r s.data none).map (fun p =>
    match List.find? (fun q => q.1 == 1) p.2 with
    | some q => ⟨q.2⟩
    | none => "")

/-- Group indices defined inside a pattern. -/
def REgroups : RE → List Nat
  | .seq a b => REgroups a ++ REgroups b
  | .alt a b => REgroups a ++ REgroups b
  | .opt a => REgroups a
  | .grp n a => n :: REgroups a
  | .negLook a => REgroups a
  | _ => []

/-- Group indices referenced by backreferences inside a pattern. -/
def REbrefs : RE → List Nat
  | .seq a b => REbrefs a ++ REbrefs b
  | .alt a b => REbrefs a ++ REbrefs b
  | .opt a => REbrefs a
  | .grp _ a => REbrefs a
  | .negLook a => REbrefs a
  | .bref n => [n]
  | _ => []

/-- A pattern compiles in Python only if every backreference names a group
the pattern defines; re.compile raises re.error otherwise. -/
def REvalidB (r : RE) : Bool := (REbrefs r).all (fun n => (REgroups r).contains n)

/-- Character class helpers for the concrete patterns. -/
def wsChar (c : Char) : Bool := pyIsWs c

/-- Class of characters other than a given one (for example the class
excluding a closing parenthesis), newline included. -/
def notChar (x : Char) : Char → Bool := fun c => c != x

/-- The dot with re.DOTALL: any character. -/
def anyChar : Char → Bool := fun _ => true

/-- Convenience: literal pattern from a string. -/
def REs (s : String) : RE := .lit s.data

/-- Pattern of difficulty_analyzer line 171: an arrow-function definition
with optional const, capturing the bound name. -/
def reArrowDef : RE :=
  .seqs [.opt (.seqs [REs "const", .plusC wsChar]),
         .grp 1 (.plusC reWordChar), .starC wsChar, REs "=", .starC wsChar,
         .alt (.seqs [REs "(", .starC (notChar ')'), REs ")"]) (.plusC reWordChar),
         .starC wsChar, REs "=>"]

/-- Pattern function-space-name without a word boundary (difficulty
analyzer line 172). -/
def reFuncDefNoB : RE := .seqs [REs "function", .plusC wsChar, .grp 1 (.plusC reWordChar)]

/-- Call pattern for a given function name: word boundary, the name,
optional space, an opening parenthesis. -/
def callPat (name : String) : RE := .seqs [.wordB, REs name, .starC wsChar, REs "("]

/-- Halving pattern of the depth heuristic: slash-two, shift, or a
Math.floor call. -/
def halvingPat : RE :=
  .alt (.seqs [REs "/", .starC wsChar, REs "2"]) (.alt (REs ">>") (REs "Math.floor"))

/-- Chained ternary pattern (question mark, no colon, question mark). -/
def ternaryPat : RE := .seqs [REs "?", .starC (notChar ':'), REs "?"]

/-- Declaration patterns of the variable counter. -/
def constDeclPat : RE := .seqs [.wordB, REs "const", .plusC wsChar, .grp 1 (.plusC reWordChar)]

/-- Let declaration pattern of the variable counter. -/
def letDeclPat : RE := .seqs [.wordB, REs "let", .plusC wsChar, .grp 1 (.plusC reWordChar)]

/-- Function declaration pattern of the variable counter (this one carries
a word boundary, unlike the recursion detector's). -/
def funcDeclPat : RE := .seqs [.wordB, REs "function", .plusC wsChar, .grp 1 (.plusC reWordChar)]

/-- Single arrow-parameter pattern. -/
def paramPat : RE := .seqs [.grp 1 (.plusC reWordChar), .starC wsChar, REs "=>"]

/-- Parenthesised arrow-parameter-list pattern. -/
def multiParamPat : RE :=
  .seqs [REs "(", .grp 1 (.plusC (notChar ')')), REs ")", .starC wsChar, REs "=>"]

/-- Operator pattern of the trace-length estimator (the single-character
class alternative first, as in the source). -/
def opPat : RE :=
  .alts [.cls (fun c => c == '+' || c == '-' || c == '*' || c == '/'),
         REs "===", REs "!==", REs ">=", REs "<=", REs "&&", REs "||"]

/-- Call-site pattern (any word then an opening parenthesis). -/
def funcCallPat : RE := .seqs [.plusC reWordChar, .starC wsChar, REs "("]

/-- List-library call pattern of the trace-length estimator. -/
def listOpsPat : RE :=
  .seqs [.wordB,
         .grp 1 (.alts [REs "map", REs "filter", REs "accumulate", REs "append", REs "reverse"]),
         .starC wsChar, REs "("]

/-- The measurable metrics record of difficulty_analyzer.DifficultyMetrics.
Counts are ints; the trace estimate is rational because a negative
input size makes the Python power expression produce a float; the
cognitive load is a float. -/
structure DifficultyMetrics where
  trace_length_estimate : Rat
  nesting_depth : Int
  concept_count : Int
  variable_count : Int
  recursive_depth : Int
  branching_factor : Int
  cognitive_load : Rat
deriving DecidableEq, Repr

/-- Bit-length helper, structurally recursive on a fuel bound (the halving
shrinks strictly, so fuel n + 1 always suffices). -/
def pyBitLengthAux : Nat → Nat → Nat
  | 0, _ => 0
  | fuel + 1, n => if n = 0 then 0 else pyBitLengthAux fuel (n / 2) + 1

/-- Python int.bit_length on a natural number. -/
def pyBitLength (n : Nat) : Nat := pyBitLengthAux (n + 1) n

/-- DifficultyAnalyzer._measure_nesting_depth: running bracket-depth
counter (all three bracket kinds, floored at zero) and the chained-ternary
count. -/
def nestLoop : List Char → Int → Int → Int
  | [], _, maxd => maxd
  | c :: cs, cur, maxd =>
    if c = '(' || c = '[' || c = Char.ofNat 123 then
      nestLoop cs (cur + 1) (max maxd (cur + 1))
    else if c = ')' || c = ']' || c = Char.ofNat 125 then
      nestLoop cs (max 0 (cur - 1)) maxd
    else nestLoop cs cur maxd

/-- DifficultyAnalyzer._measure_nesting_depth. -/
def _measure_nesting_depth (code : String) : Int :=
  let max_depth := nestLoop code.data 0 0
  let ternary_depth := (reCount ternaryPat code : Int)
  max max_depth (ternary_depth + 1)

/-- DifficultyAnalyzer._count_variables: distinct names bound by const,
let, function declarations and arrow parameters (single or parenthesised
comma-separated lists). -/
def _count_variables (code : String) : Int :=
  let const_matches := reFindAll1 constDeclPat code
  let let_matches := reFindAll1 letDeclPat code
  let func_matches := reFindAll1 funcDeclPat code
  let param_matches := reFindAll1 paramPat code
  let multi_params := reFindAll1 multiParamPat code
  let all_vars := (const_matches ++ let_matches ++ func_matches ++ param_matches).dedup
  let all_vars := multi_params.foldl (fun acc ps =>
    (ps.splitOn ",").foldl (fun a p =>
      let p' := pyStrip p
      if p' ≠ "" ∧ ¬ a.contains p' then a ++ [p'] else a) acc) all_vars
  (all_vars.length : Int)

/-- The function definitions found by DifficultyAnalyzer._analyze_recursion
(arrow definitions first, then function statements, as the source appends
the two findall results). -/
def funcDefs (code : String) : List String :=
  reFindAll1 reArrowDef code ++ reFindAll1 reFuncDefNoB code

/-- Number of call-shaped occurrences of a name. -/
def callCount (name : String) (code : String) : Nat := reCount (callPat name) code

/-- The loop over function names in _analyze_recursion: whether any name
occurs at least twice as a call, and the branching factor (occurrences
minus one, maximised, starting from one). -/
def recursionScan (code : String) (defs : List String) : Bool × Int :=
  defs.foldl (fun p f =>
    let calls := callCount f code
    if 2 ≤ calls then (true, max p.2 ((calls : Int) - 1)) else p) (false, 1)

/-- DifficultyAnalyzer._analyze_recursion: returns (estimated depth,
branching factor); (1, 1) when no definitions or no recursion are found;
otherwise depth is bit_length(input_size) (floored at 1) when the halving
pattern occurs anywhere in the code, else input_size itself. -/
def _analyze_recursion (code : String) (input_size : Int) : Int × Int :=
  let defs := funcDefs code
  if defs = [] then (1, 1)
  else
    let scan := recursionScan code defs
    if ¬ scan.1 then (1, 1)
    else
      let depth := if reSearchB halvingPat code then max 1 ((pyBitLength input_size.natAbs : Int)) else input_size
      (depth, scan.2)

/-- Integer power with Python semantics: a negative exponent yields a
float (here an exact rational). -/
def intPowR (b : Int) (e : Int) : Rat :=
  if 0 ≤ e then ((b ^ e.toNat : Int) : Rat) else 1 / ((b : Rat) ^ (-e).toNat)

/-- DifficultyAnalyzer._estimate_trace_length. -/
def _estimate_trace_length (code : String) (input_size : Int) (recursive_depth : Int)
    (branching_factor : Int) : Rat :=
  let operations := reCount opPat code
  let func_calls := reCount funcCallPat code
  let steps_per_level := max 1 (operations + func_calls / 2)
  let total_calls : Rat :=
    if 2 ≤ branching_factor then min 1000 (intPowR branching_factor recursive_depth)
    else (recursive_depth : Rat)
  let list_ops := reCount listOpsPat code
  (steps_per_level : Rat) * total_calls + (list_ops : Rat) * (input_size : Rat)

/-- DifficultyAnalyzer._compute_cognitive_load.  The topics mapping models
the syllabus lookup: some d means the concept is present in the syllabus
with effective difficulty d (the dict get default of 2 is folded into the
interpretation of the mapping); none means absent, contributing nothing. -/
def _compute_cognitive_load (topics : String → Option Int) (nesting_depth variable_count
    recursive_depth branching_factor : Int) (concepts : List String) : Rat :=
  let nesting_score := min 10 ((nesting_depth : Rat) * 1.5)
  let variable_score := min 10 ((variable_count : Rat) * 1.2)
  let recursion_score :=
    if 2 ≤ branching_factor then min 10 ((recursive_depth : Rat) * 2 + (branching_factor : Rat) * 2)
    else min 10 ((recursive_depth : Rat) * 0.8)
  let concept_score := min 10 (concepts.foldl (fun acc c =>
    match topics c with
    | some d => acc + (d : Rat) * 0.4
    | none => acc) 0)
  let total := 0.2 * nesting_score + 0.15 * variable_score + 0.35 * recursion_score +
    0.3 * concept_score
  min 10 total

/-- DifficultyAnalyzer.analyze_code: all metrics assembled. -/
def analyze_code (topics : String → Option Int) (code : String) (concepts : List String)
    (input_size : Int) : DifficultyMetrics :=
  let nesting_depth := _measure_nesting_depth code
  let variable_count := _count_variables code
  let rec_pair := _analyze_recursion code input_size
  let trace_length := _estimate_trace_length code input_size rec_pair.1 rec_pair.2
  let concept_count := (concepts.length : Int)
  let cognitive_load := _compute_cognitive_load topics nesting_depth variable_count
    rec_pair.1 rec_pair.2 concepts
  { trace_length_estimate := trace_length
    nesting_depth := nesting_depth
    concept_count := concept_count
    variable_count := variable_count
    recursive_depth := rec_pair.1
    branching_factor := rec_pair.2
    cognitive_load := cognitive_load }

/-- One row of DIFFICULTY_THRESHOLDS. -/
structure Thresh where
  trace_min : Rat
  trace_max : Rat
  concept_count : Int
  nesting_depth : Int
  load_min : Rat
  load_max : Rat

/-- The calibration table DIFFICULTY_THRESHOLDS in insertion order. -/
def DIFFICULTY_THRESHOLDS : List (String × Thresh) :=
  [("easy", ⟨3, 5, 1, 2, 0, 3⟩),
   ("medium", ⟨6, 10, 2, 4, 3, 6⟩),
   ("hard", ⟨11, 20, 3, 6, 6, 8⟩),
   ("very_hard", ⟨21, 50, 4, 10, 8, 10⟩)]

/-- The per-level point system of classify_difficulty. -/
def levelScore (t : Thresh) (m : DifficultyMetrics) : Int :=
  (if t.trace_min ≤ m.trace_length_estimate ∧ m.trace_length_estimate ≤ t.trace_max then 2
   else if m.trace_length_estimate < t.trace_min then -1 else 0) +
  (if m.concept_count ≤ t.concept_count then 1 else 0) +
  (if m.nesting_depth ≤ t.nesting_depth then 1 else 0) +
  (if t.load_min ≤ m.cognitive_load ∧ m.cognitive_load ≤ t.load_max then 2 else 0)

/-- DifficultyAnalyzer.classify_difficulty: score the four levels and pick
the maximum; Python max over the dict keeps the first key attaining the
maximum in insertion order, modelled by the strict comparison in the
fold. -/
def classify_difficulty (m : DifficultyMetrics) : String :=
  let scores := DIFFICULTY_THRESHOLDS.map (fun p => (p.1, levelScore p.2 m))
  match scores with
  | [] => ""
  | s :: rest => (rest.foldl (fun b p => if b.2 < p.2 then p else b) s).1

/-- The fixed bin order of validate_difficulty. -/
def difficulty_order : List String := ["easy", "medium", "hard", "very_hard"]

/-- Python list.index: position of the first occurrence, ValueError
(modelled by none) when absent. -/
def pyIndex : List String → String → Option Nat
  | [], _ => none
  | y :: t, x => if y = x then some 0 else (pyIndex t x).map (· + 1)

/-- DifficultyAnalyzer.validate_difficulty: analyse, classify and accept
when the classified bin is within one position of the target bin.  The
ValueError that list.index raises for a label outside the four bins is
modelled by the error result. -/
def validate_difficulty (topics : String → Option Int) (code : String) (concepts : List String)
    (target_difficulty : String) (input_size : Int) :
    Except String (Bool × String × DifficultyMetrics) :=
  let metrics := analyze_code topics code concepts input_size
  let actual_difficulty := classify_difficulty metrics
  match pyIndex difficulty_order target_difficulty, pyIndex difficulty_order actual_difficulty with
  | some target_idx, some actual_idx =>
    if ((target_idx : Int) - (actual_idx : Int)).natAbs ≤ 1 then
      .ok (true, "Difficulty matches: " ++ actual_difficulty, metrics)
    else
      .ok (false, "Target was " ++ target_difficulty ++ " but code is " ++ actual_difficulty, metrics)
  | _, _ => .error "ValueError: not in list"

/-- Chapter-1 list call pattern of check_chapter_constraints. -/
def chListPat : RE := .seqs [.wordB, REs "list", .starC wsChar, REs "("]

/-- Chapter-1 pair call pattern. -/
def chPairPat : RE := .seqs [.wordB, REs "pair", .starC wsChar, REs "("]

/-- Chapter-1 list-operation call pattern. -/
def chHeadPat : RE :=
  .seqs [.wordB, .grp 1 (.alts [REs "head", REs "tail", REs "is_null", REs "is_pair"]),
         .starC wsChar, REs "("]

/-- Loop pattern (while or for followed by an opening parenthesis). -/
def chLoopPat : RE :=
  .seqs [.wordB, .grp 1 (.alt (REs "while") (REs "for")), .starC wsChar, REs "("]

/-- Let declaration pattern of the chapter check. -/
def chLetPat : RE := .seqs [.wordB, REs "let", .plusC wsChar, .plusC reWordChar, .starC wsChar, REs "="]

/-- Mutation call pattern. -/
def chMutPat : RE :=
  .seqs [.wordB, .grp 1 (.alt (REs "set_head") (REs "set_tail")), .starC wsChar, REs "("]

/-- Per-line const declaration pattern of the reassignment scan. -/
def constLinePat : RE :=
  .seqs [.wordB, REs "const", .plusC wsChar, .grp 1 (.plusC reWordChar), .starC wsChar, REs "="]

/-- Per-line assignment pattern: start anchor, no equals sign before a
word, an equals sign not followed by another one. -/
def assignLinePat : RE :=
  .seqs [.bos, .starC (notChar '='), .wordB, .grp 1 (.plusC reWordChar), .starC wsChar,
         REs "=", .negLook (REs "=")]

/-- Const declaration of one specific variable. -/
def constVarLinePat (v : String) : RE :=
  .seqs [.wordB, REs "const", .plusC wsChar, REs v, .starC wsChar, REs "="]

/-- Stream identifier pattern. -/
def streamsPat : RE :=
  .seqs [.wordB,
         .grp 1 (.alts [REs "stream", REs "stream_tail", REs "stream_map", REs "stream_filter"]),
         .wordB]

/-- Array-literal candidate pattern (empty brackets or bracket then
digit). -/
def arrCandidatePat : RE :=
  .alt (.seqs [REs "[", .starC wsChar, REs "]"])
       (.seqs [REs "[", .starC wsChar, .cls pyIsDigit])

/-- List-notation exoneration pattern (digit comma bracket, or a null
word). -/
def listNotaPat : RE :=
  .alt (.seqs [REs "[", .starC wsChar, .plusC pyIsDigit, .starC wsChar, REs ",", .starC wsChar, REs "["])
       (.seqs [.wordB, REs "null", .wordB])

/-- Group-one capture of the first match of a pattern on a line, if any. -/
def searchGroup1 (r : RE) (s : String) : Option String :=
  match reSearchCaps r s.data none with
  | some caps =>
    (match List.find? (fun q => q.1 == 1) caps with
     | some q => some ⟨q.2⟩
     | none => some "")
  | none => none

/-- The per-line reassignment scan of check_chapter_constraints: track
const-declared names, and flag a line whose assignment match names an
already-declared variable while the line contains neither const nor an
arrow nor a const declaration of that variable. -/
def reassignScan (chapter : Int) : List String → List String → Option String
  | [], _ => none
  | line :: rest, declared_vars =>
    let declared' :=
      match searchGroup1 constLinePat line with
      | some v => declared_vars ++ [v]
      | none => declared_vars
    match searchGroup1 assignLinePat line with
    | some var_name =>
      if declared'.contains var_name ∧ ¬ strIn "const" line ∧ ¬ strIn "=>" line ∧
          ¬ reSearchB (constVarLinePat var_name) line then
        some ("Reassignment of \x27" ++ var_name ++ "\x27 not allowed in Chapter " ++ strOfInt chapter)
      else reassignScan chapter rest declared'
    | none => reassignScan chapter rest declared'

/-- Streams and array-literal checks (the tail of
check_chapter_constraints after the reassignment scan). -/
def chapterTailChecks (code : String) (chapter : Int) : Bool × Option String :=
  if chapter < 3 ∧ reSearchB streamsPat code then
    (false, some ("Streams not allowed in Chapter " ++ strOfInt chapter))
  else if chapter < 3 ∧ reSearchB arrCandidatePat code ∧ ¬ reSearchB listNotaPat code then
    (false, some ("Array literals not allowed in Chapter " ++ strOfInt chapter))
  else (true, none)

/-- CodeValidator.check_chapter_constraints: the sequence of early-return
checks of the source, in order. -/
def check_chapter_constraints (code : String) (chapter : Int) : Bool × Option String :=
  if chapter < 2 ∧ reSearchB chListPat code then (false, some "list() not allowed in Chapter 1")
  else if chapter < 2 ∧ reSearchB chPairPat code then (false, some "pair() not allowed in Chapter 1")
  else if chapter < 2 ∧ reSearchB chHeadPat code then (false, some "List operations not allowed in Chapter 1")
  else if chapter < 3 ∧ reSearchB chLoopPat code then
    (false, some ("Loops not allowed in Chapter " ++ strOfInt chapter))
  else if chapter < 3 ∧ reSearchB chLetPat code then
    (false, some ("Variable reassignment (let) not allowed in Chapter " ++ strOfInt chapter))
  else if chapter < 3 ∧ reSearchB chMutPat code then
    (false, some ("Mutation not allowed in Chapter " ++ strOfInt chapter))
  else if chapter < 3 then
    match reassignScan chapter (code.splitOn "\n") [] with
    | some msg => (false, some msg)
    | none => chapterTailChecks code chapter
  else chapterTailChecks code chapter

/-- Self-reference pattern of the concept table: a word captured, a call
argument list, anything (DOTALL), then the same word called again. -/
def recSelfPat : RE :=
  .seqs [.wordB, .grp 1 (.plusC reWordChar), .starC wsChar, REs "(", .starC (notChar ')'),
         REs ")", .starC anyChar, .bref 1, .starC wsChar, REs "("]

/-- The forbidden tail-call pattern of the recursion_process entry.  It
contains a backreference to group one but defines no group, so Python
raises re.error (invalid group reference) when the scorer compiles it;
REvalidB captures that defect. -/
def tailCallPat : RE :=
  .seqs [REs "=>", .starC wsChar, .plusC reWordChar, .starC wsChar, REs "===", .starC anyChar,
         REs "?", .starC wsChar, .plusC reWordChar, .starC wsChar, REs ":", .starC wsChar,
         .bref 1, .starC wsChar, REs "(", .starC (notChar ','), REs ","]

/-- Accumulator pattern of the iterative_process entry. -/
def qAccumPat : RE :=
  .seqs [REs ",", .starC wsChar, .plusC reWordChar, .starC wsChar,
         .cls (fun c => c == '+' || c == '-' || c == '*' || c == '/')]

/-- Lists call pattern of the concept table. -/
def qListsPat : RE :=
  .seqs [.wordB, .grp 1 (.alts [REs "list", REs "pair", REs "head", REs "tail", REs "is_null"]),
         .starC wsChar, REs "("]

/-- List-library call pattern of the concept table. -/
def qListLibPat : RE :=
  .seqs [.wordB, .grp 1 (.alts [REs "map", REs "filter", REs "accumulate", REs "append",
                                REs "reverse", REs "member", REs "remove"]),
         .starC wsChar, REs "("]

/-- First higher-order-function pattern: two arrows with anything between
them. -/
def qHofPat1 : RE := .seqs [REs "=>", .starC anyChar, REs "=>"]

/-- Second higher-order-function pattern: a call whose first argument
starts an arrow function. -/
def qHofPat2 : RE :=
  .seqs [.plusC reWordChar, .starC wsChar, REs "(", .starC wsChar, .plusC reWordChar,
         .starC wsChar, REs "=>"]

/-- Pairs call pattern of the concept table. -/
def qPairsPat : RE :=
  .seqs [.wordB, .grp 1 (.alts [REs "pair", REs "head", REs "tail", REs "is_pair"]),
         .starC wsChar, REs "("]

/-- Trees identifier pattern of the concept table. -/
def qTreesPat : RE :=
  .seqs [.wordB, .grp 1 (.alts [REs "left_branch", REs "right_branch", REs "entry",
                                REs "is_leaf", REs "make_tree"]),
         .wordB]

/-- Required and forbidden patterns with a weight: one row of
CONCEPT_PATTERNS. -/
structure ConceptPatInfo where
  required : List RE
  forbidden : List RE
  weight : Rat

/-- The CONCEPT_PATTERNS table of QuestionScorer, in source order. -/
def CONCEPT_PATTERNS : List (String × ConceptPatInfo) :=
  [("recursion", ⟨[recSelfPat], [], 1⟩),
   ("recursion_process", ⟨[recSelfPat], [tailCallPat], 1⟩),
   ("iterative_process", ⟨[recSelfPat, qAccumPat], [], 1⟩),
   ("lists", ⟨[qListsPat], [], 1⟩),
   ("list_library", ⟨[qListLibPat], [], 1⟩),
   ("higher_order_functions", ⟨[qHofPat1, qHofPat2], [], 1⟩),
   ("orders_of_growth", ⟨[recSelfPat], [], 0.8⟩),
   ("streams", ⟨[streamsPat], [], 1⟩),
   ("pairs", ⟨[qPairsPat], [], 1⟩),
   ("trees", ⟨[qTreesPat], [], 1⟩)]

/-- The KNOWN_MISCONCEPTIONS keyword table of QuestionScorer. -/
def KNOWN_MISCONCEPTIONS : List (String × List String) :=
  [("off_by_one", ["off_by_one", "fence_post", "boundary"]),
   ("process_confusion", ["process", "recursive_vs_iterative", "tail_call"]),
   ("complexity_confusion", ["time_space", "complexity", "big_o"]),
   ("list_structure", ["null", "empty_list", "pair_count"]),
   ("hof_confusion", ["map_filter", "accumulate", "argument_order"]),
   ("scope", ["scope", "environment", "frame", "shadowing"]),
   ("lazy_eager", ["lazy", "eager", "stream", "thunk"]),
   ("mutation", ["mutation", "shared", "structural_sharing"])]

/-- Python all(re.search(p, code) for p in patterns): short-circuits at the
first failing pattern; compiling an invalid pattern raises re.error, which
the error result models. -/
def allWithValidity : List RE → String → Except String Bool
  | [], _ => .ok true
  | p :: rest, code =>
    if ¬ REvalidB p then .error "re.error: invalid group reference"
    else if ¬ reSearchB p code then .ok false
    else allWithValidity rest code

/-- Python any(re.search(p, code) for p in patterns), with the same
compile-error modelling. -/
def anyWithValidity : List RE → String → Except String Bool
  | [], _ => .ok false
  | p :: rest, code =>
    if ¬ REvalidB p then .error "re.error: invalid group reference"
    else if reSearchB p code then .ok true
    else anyWithValidity rest code

/-- The per-concept loop of QuestionScorer._score_concept_validity,
accumulating scores and issues in order. -/
def scvLoop (code : String) : List String → List Rat → List String →
    Except String (List Rat × List String)
  | [], scores, issues => .ok (scores, issues)
  | c :: rest, scores, issues =>
    match (CONCEPT_PATTERNS.find? (fun p => p.1 == c)).map (fun p => p.2) with
    | some info =>
      match allWithValidity info.required code with
      | .error e => .error e
      | .ok required_found =>
        match anyWithValidity info.forbidden code with
        | .error e => .error e
        | .ok forbidden_found =>
          if ¬ required_found then
            scvLoop code rest (scores ++ [0.3 * info.weight])
              (issues ++ ["Concept \x27" ++ c ++ "\x27 pattern not found in code"])
          else if forbidden_found then
            scvLoop code rest (scores ++ [0.5 * info.weight])
              (issues ++ ["Concept \x27" ++ c ++ "\x27 has forbidden pattern (e.g., wrong process type)"])
          else
            scvLoop code rest (scores ++ [1.0 * info.weight]) issues
    | none => scvLoop code rest (scores ++ [0.7]) issues

/-- QuestionScorer._score_concept_validity. -/
def _score_concept_validity (code : String) (concepts : List String) :
    Except String (Rat × List String) :=
  match scvLoop code concepts [] [] with
  | .error e => .error e
  | .ok p =>
    if p.1 = [] then .ok (0.5, p.2)
    else .ok (p.1.sum / (p.1.length : Rat), p.2)

/-- Python type name of a value (bool is its own type even though
isinstance treats it as an int). -/
def pyTypeName : PyVal → String
  | .vInt _ => "int"
  | .vFloat _ => "float"
  | .vBool _ => "bool"
  | .vNone => "NoneType"
  | .vStr _ => "str"

/-- The type-mismatch test of _score_distractor_quality for one distractor
value against the correct answer. -/
def typeMismatch (correct_answer val : PyVal) : Bool :=
  if pyTypeName val == pyTypeName correct_answer then false
  else if isNumLike val && isNumLike correct_answer then false
  else
    match val with
    | .vStr s => if isNumLike correct_answer then (pyFloatParse s).isNone else true
    | _ => true

/-- The plausibility credit of one distractor: one for a known
misconception keyword, half for any other nonempty label outside the
generic pair, zero otherwise. -/
def plausibleCredit (d : Distractor) : Rat :=
  let m := pyLower d.misconception
  if KNOWN_MISCONCEPTIONS.any (fun p => p.2.any (fun kw => strIn kw m)) then 1
  else if d.misconception ≠ "" ∧ d.misconception ≠ "generic_error" ∧ d.misconception ≠ "arithmetic_error" then 0.5
  else 0

/-- QuestionScorer._score_distractor_quality.  The concepts parameter of
the source is unused by its body. -/
def _score_distractor_quality (correct_answer : PyVal) (distractors : List Distractor)
    (_concepts : List String) : Rat × List String :=
  if distractors = [] then (0, ["No distractors provided"])
  else
    let issues1 :=
      if distractors.length < 3 then
        ["Only " ++ strOfNat distractors.length ++ " distractors (need 3)"]
      else []
    let type_mismatches := (distractors.map (fun d => d.value)).countP (fun v => typeMismatch correct_answer v)
    let issues2 :=
      if 0 < type_mismatches then
        [strOfNat type_mismatches ++ " distractor(s) have wrong type"]
      else []
    let values := distractors.map renderD ++ [pyStr correct_answer]
    let distinct := values.dedup.length == values.length
    let issues3 := if ¬ distinct then ["Distractors are not all distinct"] else []
    let plausible_count := (distractors.map plausibleCredit).sum
    let issues4 :=
      if plausible_count < (distractors.length : Rat) * 0.5 then
        ["Some distractors lack plausible misconceptions"]
      else []
    let type_score := 1 - (type_mismatches : Rat) / (distractors.length : Rat)
    let distinct_score : Rat := if distinct then 1 else 0.5
    let plausible_score := plausible_count / (distractors.length : Rat)
    let count_score := min 1 ((distractors.length : Rat) / 3)
    let total := type_score * 0.3 + distinct_score * 0.2 + plausible_score * 0.3 + count_score * 0.2
    (total, issues1 ++ issues2 ++ issues3 ++ issues4)

/-- QuestionScorer._score_difficulty_calibration. -/
def _score_difficulty_calibration (target_difficulty : String) (actual_difficulty : Option String) :
    Rat × List String :=
  match actual_difficulty with
  | none => (0.7, ["Difficulty not measured"])
  | some actual =>
    match pyIndex difficulty_order target_difficulty, pyIndex difficulty_order actual with
    | some target_idx, some actual_idx =>
      let diff := ((target_idx : Int) - (actual_idx : Int)).natAbs
      if diff = 0 then (1, [])
      else if diff = 1 then
        (0.75, ["Difficulty slightly off: target=" ++ target_difficulty ++ ", actual=" ++ actual])
      else if diff = 2 then
        (0.4, ["Difficulty mismatch: target=" ++ target_difficulty ++ ", actual=" ++ actual])
      else
        (0.1, ["Difficulty severely mismatched: target=" ++ target_difficulty ++ ", actual=" ++ actual])
    | _, _ => (0.5, ["Unknown difficulty level: " ++ target_difficulty ++ " or " ++ actual])

/-- Single-letter declaration pattern of the code-clarity check. -/
def singleLetterPat : RE :=
  .seqs [.wordB, .grp 1 (.alt (REs "const") (REs "let")), .plusC wsChar,
         .cls (fun c => 'a' ≤ c && c ≤ 'z'), .starC wsChar, REs "="]

/-- QuestionScorer._score_code_clarity: fixed deductions from one. -/
def _score_code_clarity (code : String) : Rat × List String :=
  let lines := (pyStrip code).splitOn "\n"
  let s0 : Rat := 1
  let (s1, i1) :=
    if lines.length < 3 then (s0 - 0.2, ["Code is too short (may be trivial)"])
    else if 20 < lines.length then (s0 - 0.15, ["Code is too long (may be confusing)"])
    else (s0, [])
  let single_letter_vars := reCount singleLetterPat code
  let (s2, i2) :=
    if 3 < single_letter_vars then (s1 - 0.1, i1 ++ ["Too many single-letter variable names"])
    else (s1, i1)
  let long_lines := (lines.filter (fun l => 80 < l.length)).length
  let (s3, i3) :=
    if 2 < long_lines then (s2 - 0.1, i2 ++ ["Some lines are too long"])
    else (s2, i2)
  let has_comments := strIn "//" code || strIn "/*" code
  let (s4, i4) :=
    if has_comments then (s3 - 0.1, i3 ++ ["Code contains comments (may give hints)"])
    else (s3, i3)
  let uses_arrow := strIn "=>" code
  let uses_function := strIn "function " code
  let (s5, i5) :=
    if uses_arrow && uses_function then
      (s4 - 0.1, i4 ++ ["Mixed function styles (arrow and function keyword)"])
    else (s4, i4)
  (max 0 s5, i5)

/-- Lettered-option pattern with a closing parenthesis. -/
def optParenPat : RE := .seqs [.cls (fun c => 'A' ≤ c && c ≤ 'D'), REs ")"]

/-- Lettered-option pattern with a dot. -/
def optDotPat : RE := .seqs [.cls (fun c => 'A' ≤ c && c ≤ 'D'), REs "."]

/-- QuestionScorer._score_question_clarity: fixed deductions from one. -/
def _score_question_clarity (question_text : String) (code : String) (correct_answer : PyVal) :
    Rat × List String :=
  if question_text = "" then (0.5, ["No question text provided"])
  else
    let s0 : Rat := 1
    let (s1, i1) :=
      if code ≠ "" ∧ ¬ strIn ⟨code.data.take 30⟩ question_text then
        (s0 - 0.2, ["Code may not be included in question text"])
      else (s0, [])
    let lowq := pyLower question_text
    let has_clear_question :=
      ["what is", "what are", "which of", "how many", "what does"].any (fun p => strIn p lowq)
    let (s2, i2) :=
      if ¬ has_clear_question then (s1 - 0.15, i1 ++ ["Question lacks clear interrogative"])
      else (s1, i1)
    let has_options := reSearchB optParenPat question_text || reSearchB optDotPat question_text
    let (s3, i3) :=
      if ¬ has_options then (s2 - 0.2, i2 ++ ["No answer options (A/B/C/D) found"])
      else (s2, i2)
    let (s4, i4) :=
      if ¬ strIn (pyStr correct_answer) question_text then
        (s3 - 0.3, i3 ++ ["Correct answer may not appear in options"])
      else (s3, i3)
    let ambiguous := ["might be", "could be", "possibly", "maybe"].find? (fun p => strIn p lowq)
    let (s5, i5) :=
      match ambiguous with
      | some phrase => (s4 - 0.1, i4 ++ ["Ambiguous language: \x27" ++ phrase ++ "\x27"])
      | none => (s4, i4)
    (max 0 s5, i5)

/-- QuestionScorer._generate_suggestions: keyword-to-advice mapping over
the issue texts, deduplicated keeping first occurrences. -/
def _generate_suggestions (issues : List String) : List String :=
  let raw := issues.foldl (fun acc issue =>
    if strIn "pattern not found" issue then acc ++ ["Regenerate code to include required concept patterns"]
    else if strIn "wrong type" issue then acc ++ ["Ensure all distractors match correct answer type"]
    else if strIn "not distinct" issue then acc ++ ["Generate more varied distractors"]
    else if strIn "difficulty" (pyLower issue) && strIn "mismatch" (pyLower issue) then
      acc ++ ["Adjust code complexity to match target difficulty"]
    else if strIn "misconception" issue then acc ++ ["Use concept-specific misconceptions from traps.json"]
    else if strIn "too short" issue || strIn "trivial" issue then
      acc ++ ["Add more meaningful computation steps"]
    else if strIn "too long" issue then acc ++ ["Simplify code while preserving concept"]
    else acc) []
  raw.foldl (fun acc s => if acc.contains s then acc else acc ++ [s]) []

/-- Quality assessment record (quality_scorer.QualityScore). -/
structure QualityScore where
  total_score : Rat
  concept_validity : Rat
  distractor_quality : Rat
  difficulty_calibration : Rat
  code_clarity : Rat
  question_clarity : Rat
  issues : List String
  suggestions : List String
deriving Repr

/-- QuestionScorer.score_question: the five sub-scores combined with the
fixed weights and scaled by one hundred.  The re.error raised while
scoring the concept recursion_process (whose forbidden pattern holds an
invalid group reference) propagates as the error result. -/
def score_question (code : String) (concepts : List String) (correct_answer : PyVal)
    (distractors : List Distractor) (target_difficulty : String)
    (actual_difficulty : Option String) (question_text : String) :
    Except String QualityScore :=
  match _score_concept_validity code concepts with
  | .error e => .error e
  | .ok cv =>
    let dq := _score_distractor_quality correct_answer distractors concepts
    let dc := _score_difficulty_calibration target_difficulty actual_difficulty
    let cc := _score_code_clarity code
    let qc := _score_question_clarity question_text code correct_answer
    let issues := cv.2 ++ dq.2 ++ dc.2 ++ cc.2 ++ qc.2
    let total := (cv.1 * 0.25 + dq.1 * 0.25 + dc.1 * 0.20 + cc.1 * 0.15 + qc.1 * 0.15) * 100
    let suggestions := _generate_suggestions issues
    .ok { total_score := total
          concept_validity := cv.1 * 100
          distractor_quality := dq.1 * 100
          difficulty_calibration := dc.1 * 100
          code_clarity := cc.1 * 100
          question_clarity := qc.1 * 100
          issues := issues
          suggestions := suggestions }

/-- Outcome of one attempt body of QuestionPipeline.generate_one_question
(steps one to eight of the source).  The body calls the LLM-backed
generators and the interpreter subprocess, so it is modelled as an oracle:
produced is the successful return of a question, gateFailed is any
validation, interpreter or quality gate reaching continue, and raised is
an exception caught by the blanket except handler (which also continues). -/
inductive AttemptOutcome (Q : Type) where
  | produced : Q → AttemptOutcome Q
  | gateFailed : AttemptOutcome Q
  | raised : String → AttemptOutcome Q

/-- The retry loop: attempt number i, remaining attempts as fuel. -/
def genLoop {Q : Type} (body : Nat → AttemptOutcome Q) (i : Nat) : Nat → Option Q
  | 0 => none
  | fuel + 1 =>
    match body i with
    | .produced q => some q
    | _ => genLoop body (i + 1) fuel

/-- QuestionPipeline.generate_one_question: run the attempt body up to
max_retries times, returning the first produced question and the explicit
None result when every attempt fails. -/
def generate_one_question {Q : Type} (body : Nat → AttemptOutcome Q) (max_retries : Nat) : Option Q :=
  genLoop body 0 max_retries
/-- The first-maximum fold of classify_difficulty lands on its seed or on a
list element. -/
lemma foldl_pick_mem : ∀ (l : List (String × Int)) (b : String × Int),
    l.foldl (fun b p => if b.2 < p.2 then p else b) b = b ∨
    l.foldl (fun b p => if b.2 < p.2 then p else b) b ∈ l := by
  intro l
  induction l with
  | nil => intro b; left; rfl
  | cons x xs ih =>
    intro b
    simp only [List.foldl_cons]
    rcases ih (if b.2 < x.2 then x else b) with h | h
    · rw [h]
      by_cases hc : b.2 < x.2
      · simp [hc]
      · simp [hc]
    · right; exact List.mem_cons_of_mem _ h

/-- The classifier always answers one of the four level names. -/
lemma classify_mem (m : DifficultyMetrics) :
    classify_difficulty m = "easy" ∨ classify_difficulty m = "medium" ∨
    classify_difficulty m = "hard" ∨ classify_difficulty m = "very_hard" := by
  unfold classify_difficulty
  simp only [DIFFICULTY_THRESHOLDS, List.map_cons, List.map_nil]
  rcases foldl_pick_mem
      [("medium", levelScore ⟨6, 10, 2, 4, 3, 6⟩ m), ("hard", levelScore ⟨11, 20, 3, 6, 6, 8⟩ m),
       ("very_hard", levelScore ⟨21, 50, 4, 10, 8, 10⟩ m)]
      ("easy", levelScore ⟨3, 5, 1, 2, 0, 3⟩ m) with h | h
  · rw [h]; left; rfl
  · simp only [List.mem_cons, List.not_mem_nil, or_false] at h
    rcases h with h | h | h
    · rw [h]; right; left; rfl
    · rw [h]; right; right; left; rfl
    · rw [h]; right; right; right; rfl

/-- C10: validate_difficulty accepts with an off-by-one tolerance: for every
code string, concept list, topics mapping, input size, and target among the
four ordered bins (given through its index), the returned validity flag is
true exactly when the index distance between the target bin and the bin
classified from the computed metrics is at most one, alongside the
corresponding reason string and the metrics. -/
theorem C10_thm (topics : String → Option Int) (code : String)
    (concepts : List String) (target : String) (input_size : Int) (ti ai : Nat)
    (ht : pyIndex difficulty_order target = some ti)
    (ha : pyIndex difficulty_order
        (classify_difficulty (analyze_code topics code concepts input_size)) = some ai) :
    validate_difficulty topics code concepts target input_size =
      .ok (decide (((ti : Int) - (ai : Int)).natAbs ≤ 1),
           (if ((ti : Int) - (ai : Int)).natAbs ≤ 1 then
              "Difficulty matches: " ++
                classify_difficulty (analyze_code topics code concepts input_size)
            else
              "Target was " ++ target ++ " but code is " ++
                classify_difficulty (analyze_code topics code concepts input_size)),
           analyze_code topics code concepts input_size) := by
  unfold validate_difficulty
  dsimp only
  rw [ht, ha]
  dsimp only
  split_ifs with h
  · simp [h]
  · simp [h]

/-- The retry loop returns none when no attempt in its window produces a
question. -/
lemma genLoop_none {Q : Type} (body : Nat → AttemptOutcome Q) :
    ∀ (fuel i : Nat), (∀ j, i ≤ j → j < i + fuel → ∀ q, body j ≠ .produced q) →
      genLoop body i fuel = none := by
  intro fuel
  induction fuel with
  | zero => intro i _; rfl
  | succ n ih =>
    intro i h
    unfold genLoop
    cases hb : body i with
    | produced q => exact absurd hb (h i le_rfl (by omega) q)
    | gateFailed => exact ih (i + 1) (fun j h1 h2 q => h j (by omega) (by omega) q)
    | raised e => exact ih (i + 1) (fun j h1 h2 q => h j (by omega) (by omega) q)

/-- A question returned by the retry loop was produced by one of the
attempts in its window. -/
lemma genLoop_some {Q : Type} (body : Nat → AttemptOutcome Q) :
    ∀ (fuel i : Nat) (q : Q), genLoop body i fuel = some q →
      ∃ j, i ≤ j ∧ j < i + fuel ∧ body j = .produced q := by
  intro fuel
  induction fuel with
  | zero => intro i q h; cases h
  | succ n ih =>
    intro i q h
    unfold genLoop at h
    cases hb : body i with
    | produced q' =>
      rw [hb] at h
      exact ⟨i, le_rfl, by omega, by cases h; rw [hb]⟩
    | gateFailed =>
      rw [hb] at h
      obtain ⟨j, h1, h2, h3⟩ := ih (i + 1) q h
      exact ⟨j, by omega, by omega, h3⟩
    | raised e =>
      rw [hb] at h
      obtain ⟨j, h1, h2, h3⟩ := ih (i + 1) q h
      exact ⟨j, by omega, by omega, h3⟩

/-- C8: generate_one_question never propagates an exception (each attempt
outcome, including a raised exception caught by the blanket handler, moves
to the next attempt), and after max_retries attempts none of which produced
a question it returns the explicit no-question result none; conversely a
returned question comes from one of the attempts. -/
theorem C8_thm (Q : Type) (body : Nat → AttemptOutcome Q) (max_retries : Nat) :
    ((∀ i, i < max_retries → ∀ q, body i ≠ .produced q) →
      generate_one_question body max_retries = none) ∧
    (∀ q, generate_one_question body max_retries = some q →
      ∃ i, i < max_retries ∧ body i = .produced q) := by
  constructor
  · intro h
    exact genLoop_none body max_retries 0 (fun j h1 h2 q => h j (by omega) q)
  · intro q h
    obtain ⟨j, h1, h2, h3⟩ := genLoop_some body max_retries 0 q h
    exact ⟨j, by omega, h3⟩

/-- C8 witness: with a body that raises on every attempt, three retries
yield none. -/
theorem C8_witness :
    generate_one_question (fun _ => AttemptOutcome.raised (Q := Nat) "interpreter timeout") 3 = none :=
  (C8_thm Nat (fun _ => AttemptOutcome.raised "interpreter timeout") 3).1
    (fun _ _ q h => AttemptOutcome.noConfusion h)

/-- C3: evaluation of the list parser at the failing input of the nested
pair grammar.  The claim (and the dict branch of the same function) expect
the flat sequence 1, 2, 3, but the string branch only splits at depth-one
commas and returns the head element followed by the raw tail substring. -/
theorem C3_thm :
    _parse_list_structure (.vStr "[1, [2, [3, null]]]") = some [.vInt 1, .vStr "[2, [3, null]]"] ∧
    ([PyVal.vInt 1, PyVal.vStr "[2, [3, null]]"] ≠ [PyVal.vInt 1, PyVal.vInt 2, PyVal.vInt 3]) := by
  constructor
  · decide
  · decide

/-- C5: classify_difficulty is total on every DifficultyMetrics value (the
embedding is a total function) and always returns one of the four fixed
labels. -/
theorem C5_thm (m : DifficultyMetrics) :
    classify_difficulty m = "easy" ∨ classify_difficulty m = "medium" ∨
    classify_difficulty m = "hard" ∨ classify_difficulty m = "very_hard" :=
  classify_mem m

/-- Metrics of the empty code string with no syllabus topics. -/
lemma analyze_empty : analyze_code (fun _ => none) "" [] 5 = ⟨1, 1, 0, 0, 1, 1, 29/50⟩ := by
  have h1 : reCount opPat "" = 0 := by decide
  have h2 : reCount funcCallPat "" = 0 := by decide
  have h3 : reCount listOpsPat "" = 0 := by decide
  have h4 : _measure_nesting_depth "" = 1 := by decide
  have h5 : _count_variables "" = 0 := by decide
  have h6 : _analyze_recursion "" 5 = (1, 1) := by decide
  simp [analyze_code, h4, h5, h6, _estimate_trace_length, h1, h2, h3, _compute_cognitive_load]
  norm_num

/-- The empty code string classifies as easy. -/
lemma classify_empty : classify_difficulty (analyze_code (fun _ => none) "" [] 5) = "easy" := by
  rw [analyze_empty]
  norm_num [classify_difficulty, DIFFICULTY_THRESHOLDS, levelScore]

/-- C10 witness: concrete run on the empty code string with target easy. -/
theorem C10_witness :
    validate_difficulty (fun _ => none) "" [] "easy" 5 =
      .ok (decide (((0 : Int) - (0 : Int)).natAbs ≤ 1),
           (if ((0 : Int) - (0 : Int)).natAbs ≤ 1 then
              "Difficulty matches: " ++ classify_difficulty (analyze_code (fun _ => none) "" [] 5)
            else
              "Target was " ++ "easy" ++ " but code is " ++
                classify_difficulty (analyze_code (fun _ => none) "" [] 5)),
           analyze_code (fun _ => none) "" [] 5) :=
  C10_thm (fun _ => none) "" [] "easy" 5 0 0 (by decide)
    (by rw [classify_empty]; decide)

/-- C2 (amended): the value parser is total (the embedding is a total
function); whenever it classifies a string as opaque it returns the
stripped string, not necessarily the input unchanged; and the integer
literal 120 parses to the integer 120. -/
theorem C2_amended :
    (∀ s t : String, _parse_value (.vStr s) = .vStr t → t = pyStrip s) ∧
    _parse_value (.vStr "120") = .vInt 120 := by
  constructor
  · intro s t h
    unfold _parse_value at h
    dsimp only at h
    split_ifs at h
    all_goals repeat' split at h
    all_goals simp_all
  · decide

/-- C2 counterexample: the unparseable string with surrounding spaces is
returned stripped, not unchanged as the claim states. -/
theorem C2_counterexample :
    _parse_value (.vStr " abc ") = .vStr "abc" ∧ _parse_value (.vStr " abc ") ≠ .vStr " abc " := by
  constructor
  · decide
  · decide

/-- C2 witness: the amended claim applied at the concrete input. -/
theorem C2_witness : "abc" = pyStrip " abc " :=
  C2_amended.1 " abc " "abc" (by decide)

/-- C7 (amended): chapter-1 code matching the validator loop pattern
(while or for followed by an opening parenthesis) is always rejected, and
the message is the loop message whenever no earlier chapter-1 check (list,
pair, list operations) fires first. -/
theorem C7_amended (code : String) (hw : reSearchB chLoopPat code = true) :
    (check_chapter_constraints code 1).1 = false ∧
    (reSearchB chListPat code = false → reSearchB chPairPat code = false →
     reSearchB chHeadPat code = false →
     (check_chapter_constraints code 1).2 = some "Loops not allowed in Chapter 1") := by
  have hmsg : "Loops not allowed in Chapter " ++ strOfInt 1 = "Loops not allowed in Chapter 1" := by decide
  unfold check_chapter_constraints
  constructor
  · by_cases h1 : reSearchB chListPat code <;> by_cases h2 : reSearchB chPairPat code <;>
      by_cases h3 : reSearchB chHeadPat code <;> norm_num [h1, h2, h3, hw]
  · intro h1 h2 h3
    norm_num [h1, h2, h3, hw, hmsg]

/-- C7 counterexample: code containing both list( and while (...) is
rejected with the list message, not a loop-related message as the claim
states. -/
theorem C7_counterexample :
    reSearchB chLoopPat "const p = list(1); while (x) display(x);" = true ∧
    check_chapter_constraints "const p = list(1); while (x) display(x);" 1 =
      (false, some "list() not allowed in Chapter 1") := by
  constructor
  · decide
  · decide

/-- C7 witness: the amended claim applied to a plain while loop. -/
theorem C7_witness :
    (check_chapter_constraints "while (x) display(x);" 1).1 = false ∧
    (reSearchB chListPat "while (x) display(x);" = false →
     reSearchB chPairPat "while (x) display(x);" = false →
     reSearchB chHeadPat "while (x) display(x);" = false →
     (check_chapter_constraints "while (x) display(x);" 1).2 =
       some "Loops not allowed in Chapter 1") :=
  C7_amended "while (x) display(x);" (by decide)

/-- The recursion flag of the definition scan holds exactly when some
function name occurs at least twice as a call. -/
lemma recursionScan_fst (code : String) :
    ∀ (defs : List String) (p : Bool × Int),
      (defs.foldl (fun p f =>
        let calls := callCount f code
        if 2 ≤ calls then (true, max p.2 ((calls : Int) - 1)) else p) p).1 = true ↔
      p.1 = true ∨ ∃ f ∈ defs, 2 ≤ callCount f code := by
  intro defs
  induction defs with
  | nil => intro p; simp
  | cons f fs ih =>
    intro p
    simp only [List.foldl_cons]
    by_cases hc : 2 ≤ callCount f code
    · simp only [hc, if_pos]
      rw [ih]
      simp only [List.mem_cons]
      constructor
      · intro _; exact Or.inr ⟨f, Or.inl rfl, hc⟩
      · intro _; simp
    · simp only [hc, if_neg, not_false_iff]
      rw [ih]
      simp only [List.mem_cons]
      constructor
      · rintro (h | ⟨g, hg, hcg⟩)
        · left; exact h
        · right; exact ⟨g, Or.inr hg, hcg⟩
      · rintro (h | ⟨g, hg | hg, hcg⟩)
        · left; exact h
        · exact absurd hcg (by rw [hg]; exact hc)
        · right; exact ⟨g, hg, hcg⟩

/-- Bit length of a positive number is positive. -/
lemma pyBitLength_pos (n : Nat) (h : 1 ≤ n) : 1 ≤ pyBitLength n := by
  obtain ⟨m, rfl⟩ : ∃ m, n = m + 1 := ⟨n - 1, by omega⟩
  unfold pyBitLength pyBitLengthAux
  split <;> omega

/-- C4 (amended): for recursive code (some defined function name occurring
at least twice as a call) and positive input size, the analyzer returns
depth bit_length(input_size) (that is floor(log2 n) + 1, not the ceiling
log the claim states) when a halving pattern occurs, else input_size, with
the branching factor of the definition scan; with no definitions it
returns (1, 1). -/
theorem C4_amended (code : String) (input_size : Int) (hn : 1 ≤ input_size) :
    (funcDefs code = [] → _analyze_recursion code input_size = (1, 1)) ∧
    ((∃ f ∈ funcDefs code, 2 ≤ callCount f code) →
      _analyze_recursion code input_size =
        ((if reSearchB halvingPat code then ((pyBitLength input_size.natAbs : Nat) : Int)
          else input_size),
         (recursionScan code (funcDefs code)).2)) := by
  constructor
  · intro h
    unfold _analyze_recursion
    simp [h]
  · intro hex
    have hne : funcDefs code ≠ [] := by
      obtain ⟨f, hf, _⟩ := hex
      intro h
      rw [h] at hf
      cases hf
    have hscan : (recursionScan code (funcDefs code)).1 = true := by
      unfold recursionScan
      rw [recursionScan_fst]
      right
      exact hex
    have hbit : 1 ≤ (pyBitLength input_size.natAbs : Int) := by
      have : 1 ≤ pyBitLength input_size.natAbs :=
        pyBitLength_pos _ (by omega)
      omega
    unfold _analyze_recursion
    simp only [hne, if_neg, hscan, not_true, ite_false]
    by_cases hh : reSearchB halvingPat code
    · simp [hh, hscan, hne, max_eq_right hbit]
    · simp [hh, hscan, hne]

/-- C4 counterexample: at input size 8 the halving depth is 4, not the
ceiling log2 value 3 predicted by the claim (Nat.clog 2 8 = 3). -/
theorem C4_counterexample :
    (_analyze_recursion "function f(n) f(n / 2);" 8).1 = 4 ∧ (4 : Int) ≠ ((Nat.clog 2 8 : Nat) : Int) := by
  constructor
  · decide
  · have h3 : Nat.clog 2 8 = 3 := by
      rw [show (8 : Nat) = 2 ^ 3 by norm_num]
      rw [Nat.clog_pow]
      norm_num
    rw [h3]
    decide

/-- C4 witness: the amended claim applied to a concrete halving recursive
function at input size 8. -/
theorem C4_witness :
    _analyze_recursion "function f(n) f(n / 2);" 8 =
      ((if reSearchB halvingPat "function f(n) f(n / 2);" then
          ((pyBitLength (8 : Int).natAbs : Nat) : Int)
        else (8 : Int)),
       (recursionScan "function f(n) f(n / 2);" (funcDefs "function f(n) f(n / 2);")).2) :=
  (C4_amended "function f(n) f(n / 2);" 8 (by norm_num)).2 (by decide)

/-- C6: when the correct answer is the complexity string O(n), every
distractor produced by generate_smart_distractors (default count three) is
drawn from the set O(1), O(log n), O(n^2), O(n log n) and never equals
O(n), for every concept, ground truth and random stream. -/
theorem C6_thm (concept : String) (gt : GroundTruth) (rand : Nat → Int) (l : List Distractor)
    (h : generate_smart_distractors concept (.vStr "O(n)") gt 3 rand = .ok l) :
    ∀ d ∈ l, renderD d ∈ ["O(1)", "O(log n)", "O(n^2)", "O(n log n)"] ∧ renderD d ≠ "O(n)" := by
  have he : generate_smart_distractors concept (.vStr "O(n)") gt 3 rand =
      .ok [⟨.vStr "O(1)", "ignored_recursion", "Forgot the function is recursive"⟩,
           ⟨.vStr "O(n^2)", "saw_nested_structure", "Thought nested calls meant quadratic"⟩,
           ⟨.vStr "O(log n)", "thought_dividing", "Assumed divide-and-conquer pattern"⟩] := rfl
  rw [he] at h
  injection h with h'
  subst h'
  intro d hd
  fin_cases hd
  · exact ⟨by decide, by decide⟩
  · exact ⟨by decide, by decide⟩
  · exact ⟨by decide, by decide⟩

/-- C6 witness: the theorem applied at a concrete concept, ground truth
and random stream. -/
theorem C6_witness :
    renderD ⟨.vStr "O(1)", "ignored_recursion", "Forgot the function is recursive"⟩ ∈
      ["O(1)", "O(log n)", "O(n^2)", "O(n log n)"] ∧
    renderD ⟨.vStr "O(1)", "ignored_recursion", "Forgot the function is recursive"⟩ ≠ "O(n)" :=
  C6_thm "orders_of_growth" ⟨0, ""⟩ (fun _ => 0)
    [⟨.vStr "O(1)", "ignored_recursion", "Forgot the function is recursive"⟩,
     ⟨.vStr "O(n^2)", "saw_nested_structure", "Thought nested calls meant quadratic"⟩,
     ⟨.vStr "O(log n)", "thought_dividing", "Assumed divide-and-conquer pattern"⟩] rfl
    ⟨.vStr "O(1)", "ignored_recursion", "Forgot the function is recursive"⟩
    (List.mem_cons_self _ _)

/-- The deduplication pass extends the seen set by exactly the rendered
values it keeps. -/
lemma dedupD_seen_eq : ∀ (ds : List Distractor) (seen : List String),
    (dedupD ds seen).2 = seen ++ (dedupD ds seen).1.map renderD := by
  intro ds
  induction ds with
  | nil => intro seen; simp [dedupD]
  | cons d ds ih =>
    intro seen
    unfold dedupD
    split
    · exact ih seen
    · simp [ih (seen ++ [renderD d])]

/-- The deduplication pass keeps pairwise distinct rendered values, none
of which was in the initial seen set. -/
lemma dedupD_fresh : ∀ (ds : List Distractor) (seen : List String),
    ((dedupD ds seen).1.map renderD).Nodup ∧
    (∀ x ∈ (dedupD ds seen).1.map renderD, x ∉ seen) := by
  intro ds
  induction ds with
  | nil => intro seen; simp [dedupD]
  | cons d ds ih =>
    intro seen
    unfold dedupD
    split
    · exact ih seen
    · next hc =>
      have hcm : renderD d ∉ seen := by simpa using hc
      obtain ⟨ihn, ihf⟩ := ih (seen ++ [renderD d])
      constructor
      · simp only [List.map_cons, List.nodup_cons]
        refine ⟨fun hmem => ?_, ihn⟩
        have := ihf _ hmem
        simp at this
      · intro x hx
        simp only [List.map_cons, List.mem_cons] at hx
        rcases hx with rfl | hx'
        · exact hcm
        · intro hxs
          exact (ihf x hx') (List.mem_append.mpr (Or.inl hxs))

/-- A padding candidate always renders to a string outside the seen set. -/
lemma padChoice_fresh (vt : String) (pa ca : PyVal) (rand : Nat → Int) (i : Nat)
    (seen : List String) (d : Distractor) (h : padChoice vt pa ca rand i seen = some d) :
    renderD d ∉ seen := by
  unfold padChoice at h
  dsimp only at h
  split at h
  · -- numeric
    split at h
    · -- vInt
      split_ifs at h with h1 h2
      · injection h with h'; subst h'; simpa [renderD] using h1.2
      · injection h with h'; subst h'; simpa [renderD] using h2
    · -- vFloat
      split_ifs at h with h1 h2
      · injection h with h'; subst h'; simpa [renderD] using h1.2
      · injection h with h'; subst h'; simpa [renderD] using h2
    · cases h
  · split at h
    · -- list
      split_ifs at h with h1 h2
      · injection h with h'; subst h'; simpa [renderD] using h2
    · split at h
      · -- complexity
        cases hf : List.find? (fun o => !seen.contains o)
            ["O(1)", "O(log n)", "O(n)", "O(n log n)", "O(n^2)", "O(2^n)"] with
        | none => rw [hf] at h; cases h
        | some opt =>
          rw [hf] at h
          injection h with h'
          subst h'
          have := List.find?_some hf
          simpa [renderD] using this
      · cases h

/-- The padding loop preserves distinctness of rendered values and never
introduces a value from the seen set that was not already in the list. -/
lemma pad_spec (vt : String) (pa ca : PyVal) (rand : Nat → Int) (n : Nat) :
    ∀ (fuel i : Nat) (acc : List Distractor) (seen : List String),
      (acc.map renderD).Nodup →
      (∀ d ∈ acc, renderD d ∈ seen) →
      ((pad_distractors vt pa ca rand n fuel i acc seen).map renderD).Nodup ∧
      (∀ s ∈ seen, s ∉ acc.map renderD →
        s ∉ (pad_distractors vt pa ca rand n fuel i acc seen).map renderD) := by
  intro fuel
  induction fuel with
  | zero => intro i acc seen h1 _; exact ⟨h1, fun s _ hs => hs⟩
  | succ f ih =>
    intro i acc seen h1 h2
    unfold pad_distractors
    split
    · cases hp : padChoice vt pa ca rand i seen with
      | none => simp only [hp]; exact ⟨h1, fun s _ hs => hs⟩
      | some d =>
        simp only [hp]
        have hfresh := padChoice_fresh vt pa ca rand i seen d hp
        have h1' : ((acc ++ [d]).map renderD).Nodup := by
          simp only [List.map_append, List.map_cons, List.map_nil]
          rw [List.nodup_append]
          refine ⟨h1, List.nodup_singleton _, ?_⟩
          intro x hx hx2
          simp only [List.mem_singleton] at hx2
          subst hx2
          obtain ⟨d', hd', hde⟩ := List.mem_map.mp hx
          exact hfresh (hde ▸ h2 d' hd')
        have h2' : ∀ d' ∈ acc ++ [d], renderD d' ∈ seen ++ [renderD d] := by
          intro d' hd'
          rcases List.mem_append.mp hd' with hl | hr
          · exact List.mem_append.mpr (Or.inl (h2 d' hl))
          · simp only [List.mem_singleton] at hr
            subst hr
            simp
        obtain ⟨ihn, ihf⟩ := ih (i + 1) (acc ++ [d]) (seen ++ [renderD d]) h1' h2'
        refine ⟨ihn, ?_⟩
        intro s hs hsacc
        apply ihf s (List.mem_append.mpr (Or.inl hs))
        simp only [List.map_append, List.mem_append, List.map_cons, List.map_nil,
          List.mem_singleton]
        rintro (h | h)
        · exact hsacc h
        · rw [h] at hs
          exact hfresh hs
    · exact ⟨h1, fun s _ hs => hs⟩

/-- The deduplicate-pad-truncate tail of generate_smart_distractors yields
a list of pairwise distinct rendered values avoiding the rendering of the
correct answer. -/
lemma smart_tail_spec (vt : String) (pa ca : PyVal) (rand : Nat → Int) (n : Nat)
    (ds : List Distractor) (l : List Distractor)
    (h : (pad_distractors vt pa ca rand n n 0
      (dedupD ds [pyStr ca, pyStr pa]).1 (dedupD ds [pyStr ca, pyStr pa]).2).take n = l) :
    l.length ≤ n ∧ (l.map renderD).Nodup ∧ pyStr ca ∉ l.map renderD := by
  subst h
  obtain ⟨hn, hf⟩ := dedupD_fresh ds [pyStr ca, pyStr pa]
  have hseen : ∀ d ∈ (dedupD ds [pyStr ca, pyStr pa]).1,
      renderD d ∈ (dedupD ds [pyStr ca, pyStr pa]).2 := by
    intro d hd
    rw [dedupD_seen_eq]
    exact List.mem_append.mpr (Or.inr (List.mem_map_of_mem _ hd))
  have hcor : pyStr ca ∈ (dedupD ds [pyStr ca, pyStr pa]).2 := by
    rw [dedupD_seen_eq]
    exact List.mem_append.mpr (Or.inl (by simp))
  have hcor2 : pyStr ca ∉ (dedupD ds [pyStr ca, pyStr pa]).1.map renderD :=
    fun hm => (hf _ hm) (by simp)
  obtain ⟨pn, pf⟩ := pad_spec vt pa ca rand n n 0
    (dedupD ds [pyStr ca, pyStr pa]).1 (dedupD ds [pyStr ca, pyStr pa]).2 hn hseen
  refine ⟨?_, ?_, ?_⟩
  · rw [List.length_take]
    exact min_le_left _ _
  · rw [List.map_take]
    exact pn.sublist (List.take_sublist _ _)
  · intro hm
    rw [List.map_take] at hm
    exact pf (pyStr ca) hcor hcor2 (List.mem_of_mem_take hm)

/-- C1 (amended): whenever generate_smart_distractors returns a list (it
raises a TypeError for certain string answers classified numeric), the
list has at most n entries, not always exactly n as the claim states, and
its string-rendered values are pairwise distinct and all distinct from the
rendering of the correct answer. -/
theorem C1_amended (concept : String) (correct_answer : PyVal) (gt : GroundTruth) (n : Nat)
    (rand : Nat → Int) (l : List Distractor)
    (h : generate_smart_distractors concept correct_answer gt n rand = .ok l) :
    l.length ≤ n ∧ (l.map renderD).Nodup ∧ pyStr correct_answer ∉ l.map renderD := by
  unfold generate_smart_distractors at h
  dsimp only at h
  repeat' split at h
  all_goals first
    | (injection h with h'; exact smart_tail_spec _ _ _ rand n _ l h')
    | cases h

/-- C1 counterexample: a boolean correct answer with the default request
of three distractors yields only two, refuting the exact-count part of
the claim. -/
theorem C1_counterexample :
    Except.map List.length
      (generate_smart_distractors "recursion" (.vBool true) ⟨0, ""⟩ 3 (fun _ => 0)) =
      .ok 2 ∧ (2 : Nat) ≠ 3 := by
  constructor
  · rfl
  · decide

/-- C1 witness: the amended claim applied at the boolean counterexample
input. -/
theorem C1_witness :
    ([(⟨.vBool false, "boolean_inversion", "Inverted the predicate result"⟩ : Distractor),
      ⟨.vStr "undefined", "undefined_check", "Thought expression was undefined"⟩] : List Distractor).length ≤ 3 ∧
    (([(⟨.vBool false, "boolean_inversion", "Inverted the predicate result"⟩ : Distractor),
       ⟨.vStr "undefined", "undefined_check", "Thought expression was undefined"⟩].map renderD).Nodup) ∧
    pyStr (.vBool true) ∉
      [(⟨.vBool false, "boolean_inversion", "Inverted the predicate result"⟩ : Distractor),
       ⟨.vStr "undefined", "undefined_check", "Thought expression was undefined"⟩].map renderD :=
  C1_amended "recursion" (.vBool true) ⟨0, ""⟩ 3 (fun _ => 0) _ (by rfl)

/-- Every weight in the concept pattern table lies in the unit interval. -/
lemma weight_bounds : ∀ z ∈ CONCEPT_PATTERNS, 0 ≤ z.2.weight ∧ z.2.weight ≤ 1 := by
  intro z hz
  fin_cases hz <;> norm_num

/-- Every score accumulated by the concept validity loop lies in the unit
interval. -/
lemma scvLoop_bounds (code : String) : ∀ (cs : List String) (scores : List Rat)
    (issues : List String) (res : List Rat × List String),
    scvLoop code cs scores issues = .ok res →
    (∀ x ∈ scores, 0 ≤ x ∧ x ≤ 1) → ∀ x ∈ res.1, 0 ≤ x ∧ x ≤ 1 := by
  intro cs
  induction cs with
  | nil =>
    intro scores issues res h hb
    unfold scvLoop at h
    injection h with h'
    subst h'
    exact hb
  | cons c rest ih =>
    intro scores issues res h hb
    unfold scvLoop at h
    cases hfind : CONCEPT_PATTERNS.find? (fun p => p.1 == c) with
    | none =>
      rw [hfind] at h
      dsimp only [Option.map] at h
      refine ih _ _ _ h ?_
      intro x hx
      rcases List.mem_append.mp hx with hl | hr
      · exact hb x hl
      · simp only [List.mem_singleton] at hr
        subst hr
        norm_num
    | some z =>
      rw [hfind] at h
      dsimp only [Option.map] at h
      have hz := List.mem_of_find?_eq_some hfind
      have hw := weight_bounds z hz
      cases hA : allWithValidity z.2.required code with
      | error e => rw [hA] at h; cases h
      | ok rf =>
        rw [hA] at h
        cases hB : anyWithValidity z.2.forbidden code with
        | error e => rw [hB] at h; cases h
        | ok bf =>
          rw [hB] at h
          dsimp only at h
          split_ifs at h
          all_goals refine ih _ _ _ h ?_
          all_goals intro x hx
          all_goals rcases List.mem_append.mp hx with hl | hr
          all_goals try exact hb x hl
          all_goals simp only [List.mem_singleton] at hr
          all_goals subst hr
          all_goals constructor <;> nlinarith [hw.1, hw.2]

/-- The average of unit-interval values lies in the unit interval. -/
lemma avg_bounds (l : List Rat) (hne : l ≠ []) (h : ∀ x ∈ l, 0 ≤ x ∧ x ≤ 1) :
    0 ≤ l.sum / (l.length : Rat) ∧ l.sum / (l.length : Rat) ≤ 1 := by
  have hlen : 0 < (l.length : Rat) := by
    have : 0 < l.length := List.length_pos.mpr hne
    exact_mod_cast this
  have hsum0 : 0 ≤ l.sum := List.sum_nonneg (fun x hx => (h x hx).1)
  have hsum1 : l.sum ≤ (l.length : Rat) := by
    have := List.sum_le_card_nsmul l 1 (fun x hx => (h x hx).2)
    simpa [nsmul_eq_mul] using this
  constructor
  · positivity
  · rw [div_le_one hlen]
    exact hsum1

/-- The concept validity sub-score lies in the unit interval. -/
lemma scv_bounds (code : String) (concepts : List String) (p : Rat × List String)
    (h : _score_concept_validity code concepts = .ok p) : 0 ≤ p.1 ∧ p.1 ≤ 1 := by
  unfold _score_concept_validity at h
  cases hl : scvLoop code concepts [] [] with
  | error e => rw [hl] at h; cases h
  | ok q =>
    rw [hl] at h
    dsimp only at h
    have hb := scvLoop_bounds code concepts [] [] q hl (by intro x hx; cases hx)
    split_ifs at h with hq
    · injection h with h'; subst h'; norm_num
    · injection h with h'
      subst h'
      exact avg_bounds q.1 hq hb

/-- The plausibility credit of one distractor lies in the unit interval. -/
lemma plausibleCredit_bounds (d : Distractor) : 0 ≤ plausibleCredit d ∧ plausibleCredit d ≤ 1 := by
  unfold plausibleCredit
  by_cases h1 : (KNOWN_MISCONCEPTIONS.any fun p => p.2.any fun kw => strIn kw (pyLower d.misconception)) = true
  · rw [if_pos h1]; norm_num
  · rw [if_neg h1]
    by_cases h2 : d.misconception ≠ "" ∧ d.misconception ≠ "generic_error" ∧ d.misconception ≠ "arithmetic_error"
    · rw [if_pos h2]; norm_num
    · rw [if_neg h2]; norm_num

/-- The distractor quality sub-score lies in the unit interval. -/
lemma dq_bounds (ca : PyVal) (ds : List Distractor) (cs : List String) :
    0 ≤ (_score_distractor_quality ca ds cs).1 ∧ (_score_distractor_quality ca ds cs).1 ≤ 1 := by
  unfold _score_distractor_quality
  split
  · norm_num
  · next hds =>
    dsimp only
    have hlen : 0 < ((ds.length : Nat) : Rat) := by
      have : 0 < ds.length := List.length_pos.mpr hds
      exact_mod_cast this
    have hm : ((ds.map (fun d => d.value)).countP (fun v => typeMismatch ca v) : Rat) ≤ (ds.length : Rat) := by
      have h1 : (ds.map (fun d => d.value)).countP (fun v => typeMismatch ca v) ≤ ds.length := by
        have := List.countP_le_length (p := fun v => typeMismatch ca v) (l := ds.map (fun d => d.value))
        simpa using this
      exact_mod_cast h1
    have hm0 : (0 : Rat) ≤ ((ds.map (fun d => d.value)).countP (fun v => typeMismatch ca v) : Rat) := by
      positivity
    have hp0 : 0 ≤ (ds.map plausibleCredit).sum :=
      List.sum_nonneg (fun x hx => by
        obtain ⟨d, _, rfl⟩ := List.mem_map.mp hx
        exact (plausibleCredit_bounds d).1)
    have hp1 : (ds.map plausibleCredit).sum ≤ (ds.length : Rat) := by
      have := List.sum_le_card_nsmul (ds.map plausibleCredit) 1 (fun x hx => by
        obtain ⟨d, _, rfl⟩ := List.mem_map.mp hx
        exact (plausibleCredit_bounds d).2)
      simpa [nsmul_eq_mul] using this
    have ht1 : ((ds.map (fun d => d.value)).countP (fun v => typeMismatch ca v) : Rat) / (ds.length : Rat) ≤ 1 := by
      rw [div_le_one hlen]; exact hm
    have ht0 : 0 ≤ ((ds.map (fun d => d.value)).countP (fun v => typeMismatch ca v) : Rat) / (ds.length : Rat) :=
      div_nonneg hm0 (le_of_lt hlen)
    have hps0 : 0 ≤ (ds.map plausibleCredit).sum / (ds.length : Rat) :=
      div_nonneg hp0 (le_of_lt hlen)
    have hps1 : (ds.map plausibleCredit).sum / (ds.length : Rat) ≤ 1 := by
      rw [div_le_one hlen]; exact hp1
    have hcs0 : (0 : Rat) ≤ min 1 ((ds.length : Rat) / 3) := by
      apply le_min <;> positivity
    have hcs1 : min 1 ((ds.length : Rat) / 3) ≤ 1 := min_le_left _ _
    split_ifs with hdist
    · constructor <;> nlinarith [ht0, ht1, hps0, hps1, hcs0, hcs1]
    · constructor <;> nlinarith [ht0, ht1, hps0, hps1, hcs0, hcs1]

/-- The difficulty calibration sub-score lies in the unit interval. -/
lemma dc_bounds (target : String) (actual : Option String) :
    0 ≤ (_score_difficulty_calibration target actual).1 ∧
    (_score_difficulty_calibration target actual).1 ≤ 1 := by
  unfold _score_difficulty_calibration
  rcases actual with _ | a
  · norm_num
  · rcases hti : pyIndex difficulty_order target with _ | ti <;>
      rcases hai : pyIndex difficulty_order a with _ | ai <;>
      simp only [hti, hai] <;> (try split_ifs) <;> norm_num

/-- The code clarity sub-score lies in the unit interval. -/
lemma cc_bounds (code : String) :
    0 ≤ (_score_code_clarity code).1 ∧ (_score_code_clarity code).1 ≤ 1 := by
  unfold _score_code_clarity
  dsimp only
  split_ifs <;> constructor <;> norm_num [le_max_iff, max_le_iff]

/-- The question clarity sub-score lies in the unit interval. -/
lemma qc_bounds (qtext code : String) (ca : PyVal) :
    0 ≤ (_score_question_clarity qtext code ca).1 ∧
    (_score_question_clarity qtext code ca).1 ≤ 1 := by
  unfold _score_question_clarity
  by_cases hq : qtext = ""
  · rw [if_pos hq]; norm_num
  · rw [if_neg hq]
    dsimp only
    rcases hfind : List.find? (fun p => strIn p (pyLower qtext))
        ["might be", "could be", "possibly", "maybe"] with _ | phrase <;>
      simp only [hfind] <;> split_ifs <;> constructor <;>
      norm_num [le_max_iff, max_le_iff]

/-- C9 (amended): whenever score_question returns (it raises re.error when
the concept list contains recursion_process, whose forbidden pattern holds
an invalid group reference), the total equals one hundred times the fixed
weighted combination 0.25, 0.25, 0.20, 0.15, 0.15 of the five sub-scores,
each sub-score lies in the unit interval, and the total lies between zero
and one hundred. -/
theorem C9_amended (code : String) (concepts : List String) (correct_answer : PyVal)
    (distractors : List Distractor) (target_difficulty : String)
    (actual_difficulty : Option String) (question_text : String) (q : QualityScore)
    (h : score_question code concepts correct_answer distractors target_difficulty
      actual_difficulty question_text = .ok q) :
    ∃ cv, _score_concept_validity code concepts = .ok cv ∧
      q.total_score =
        (cv.1 * 0.25 + (_score_distractor_quality correct_answer distractors concepts).1 * 0.25 +
         (_score_difficulty_calibration target_difficulty actual_difficulty).1 * 0.20 +
         (_score_code_clarity code).1 * 0.15 +
         (_score_question_clarity question_text code correct_answer).1 * 0.15) * 100 ∧
      (0 ≤ cv.1 ∧ cv.1 ≤ 1) ∧
      (0 ≤ (_score_distractor_quality correct_answer distractors concepts).1 ∧
        (_score_distractor_quality correct_answer distractors concepts).1 ≤ 1) ∧
      (0 ≤ (_score_difficulty_calibration target_difficulty actual_difficulty).1 ∧
        (_score_difficulty_calibration target_difficulty actual_difficulty).1 ≤ 1) ∧
      (0 ≤ (_score_code_clarity code).1 ∧ (_score_code_clarity code).1 ≤ 1) ∧
      (0 ≤ (_score_question_clarity question_text code correct_answer).1 ∧
        (_score_question_clarity question_text code correct_answer).1 ≤ 1) ∧
      0 ≤ q.total_score ∧ q.total_score ≤ 100 := by
  unfold score_question at h
  cases hcv : _score_concept_validity code concepts with
  | error e => rw [hcv] at h; cases h
  | ok cv =>
    rw [hcv] at h
    dsimp only at h
    injection h with h'
    subst h'
    have b1 := scv_bounds code concepts cv hcv
    have b2 := dq_bounds correct_answer distractors concepts
    have b3 := dc_bounds target_difficulty actual_difficulty
    have b4 := cc_bounds code
    have b5 := qc_bounds question_text code correct_answer
    refine ⟨cv, rfl, rfl, b1, b2, b3, b4, b5, ?_, ?_⟩
    · nlinarith [b1.1, b1.2, b2.1, b2.2, b3.1, b3.2, b4.1, b4.2, b5.1, b5.2]
    · nlinarith [b1.1, b1.2, b2.1, b2.2, b3.1, b3.2, b4.1, b4.2, b5.1, b5.2]

/-- C9 counterexample: scoring any question under the concept
recursion_process raises instead of returning a total. -/
theorem C9_counterexample :
    score_question "const x = 1;" ["recursion_process"] (.vInt 1) [] "easy" none "" =
      .error "re.error: invalid group reference" := by
  rfl

/-- C9 witness: the amended claim applied at a concrete input on which the
scorer returns. -/
theorem C9_witness : ∃ cv, _score_concept_validity "" [] = .ok cv := by
  obtain ⟨cv, h1, -⟩ := C9_amended "" [] (.vInt 1) [] "easy" none "" _ rfl
  exact ⟨cv, h1⟩
